import Mathlib

/-!
Type generation of go-telegram-bot (`scripts/generate/types.go`).

A shallow embedding of the generator that turns the description of the Telegram
API's data model into Go type definitions, and theorems about it.

Conventions of the embedding.

* A Go function returning `(string, error)` is a Lean function returning
  `String × Option String`: the returned text and the error message, `none`
  standing for a `nil` error.  `fmt.Errorf` with `%s` and `%w` verbs is string
  concatenation (`%w` contributes the message of the wrapped error).
* A `strings.Builder` is the `String` written so far; `WriteString` appends.
* A loop of the source is a recursive function over the list it ranges over,
  threading the builder; an early `return "", err` of the enclosing function is
  the `Except.error` result of the loop, turned into `("", some err)` by the
  function itself.
* Executing one of the three `html/template` templates appends its rendering.
  The templates contain no markup, so every action sits in HTML text context,
  where `html/template` passes the value through its HTML escaper.
* `generateTypes` returns its error together with the list of the calls it
  made to the sink `writeGenToFile`, so that a call that is not made can be
  told from one that is.
* The Go code held by the templates is embedded like the generator itself:
  the body of the emitted `InputMediaParams` method is a function on the value
  of `Media` and the side-table, `json.Marshal` being a parameter.
* Functions, constants and types that live in other files of the package
  (`titleToSnake`, `snakeToTitle`, `Field.getPreferredType`, `isTgType`, the
  `tgType...` constants, the schema types) are either taken as parameters,
  bundled in `Externals`, or modelled from the specification, which is said in
  their doc comment.
-/

namespace Generate

/-! ## Schema model -/

/-- Modelled from the spec: the `Field` type is declared outside `types.go`.
One field of a type: wire name, declared type alternatives, required flag and
human description.  `types.go` reads `Name`, `Required` and `Description`. -/
structure Field where
  Name : String
  Types : List String
  Required : Bool
  Description : String
  deriving DecidableEq, Repr

/-- Modelled from the spec: the `TypeDescription` type is declared outside
`types.go`.  One schema type: name, description lines, reference URL, ordered
fields, the members of the family (when the type is a family) and the ordered
list of parent families.  These are the attributes `types.go` reads. -/
structure TypeDescription where
  Name : String
  Description : List String
  Href : String
  Fields : List Field
  Subtypes : List String
  SubtypeOf : List String
  deriving DecidableEq, Repr

/-- Modelled from the spec: the `APIDescription` type is declared outside
`types.go`.  The Go field `Types` is a `map[string]TypeDescription`; here it is
an association list from type name to description. -/
structure APIDescription where
  Types : List (String × TypeDescription)
  deriving Repr

/-- Functions of the package that `types.go` calls but that are defined in
other files.  Every definition below takes them as a parameter, so the theorems
hold for all implementations of them.  A Go method returning `(string, error)`
is a function to `String × Option String`. -/
structure Externals where
  titleToSnake : String → String
  snakeToTitle : String → String
  getPreferredType : Field → String × Option String
  isTgType : APIDescription → String → Bool

/-! ## Constants -/

/-- Modelled from the spec: the constant `tgTypeInputMedia` is declared outside
`types.go`; it names the attachable-media family. -/
def tgTypeInputMedia : String := "InputMedia"

/-- Modelled from the spec: the constant `tgTypeInlineQueryResult` is declared
outside `types.go`; it names the query-result family. -/
def tgTypeInlineQueryResult : String := "InlineQueryResult"

/-- Modelled from the spec: the constant `tgTypeInputMessageContent` is declared
outside `types.go`; it names the message-content family. -/
def tgTypeInputMessageContent : String := "InputMessageContent"

/-- Modelled from the spec: the constant `tgTypePassportElementError` is
declared outside `types.go`; it names the element-error family. -/
def tgTypePassportElementError : String := "PassportElementError"

/-- Modelled from the spec: the constant `tgTypeCallbackGame` is declared
outside `types.go`; it names the generic callback game. -/
def tgTypeCallbackGame : String := "CallbackGame"

/-- Modelled from the spec: the constant `tgTypeInputFile` is declared outside
`types.go`; it names the generic upload-capable input file type. -/
def tgTypeInputFile : String := "InputFile"

/-- Modelled from the spec: the constant `tgTypeVoiceChatStarted` is declared
outside `types.go`; it names the whitelisted legitimately empty struct. -/
def tgTypeVoiceChatStarted : String := "VoiceChatStarted"

/-- The hardcoded reply-markup allow-list (`var replyMarkupTypes`). -/
def replyMarkupTypes : List String :=
  ["InlineKeyboardMarkup", "ReplyKeyboardMarkup", "ReplyKeyboardRemove", "ForceReply"]

/-! ## Strings and templates -/

/-- Go `strings.TrimPrefix`: `s` without the leading `pfx`, or `s` itself when
it does not start with `pfx`. -/
def trimPrefix (s pfx : String) : String :=
  if pfx.data.isPrefixOf s.data then ⟨s.data.drop pfx.data.length⟩ else s

/-- The replacement table of the HTML escaper of `html/template`
(`htmlReplacementTable`): NUL, the two quotes, `&`, `+`, `<` and `>` are
replaced, every other character is kept. -/
def htmlEscapeChar (c : Char) : List Char :=
  if c.toNat = 0 then [Char.ofNat 0xFFFD]
  else if c.toNat = 34 then "&#34;".data
  else if c.toNat = 38 then "&amp;".data
  else if c.toNat = 39 then "&#39;".data
  else if c.toNat = 43 then "&#43;".data
  else if c.toNat = 60 then "&lt;".data
  else if c.toNat = 62 then "&gt;".data
  else [c]

/-- Escaping of a character list, character by character. -/
def htmlEscapeChars : List Char → List Char
  | [] => []
  | c :: cs => htmlEscapeChar c ++ htmlEscapeChars cs

/-- The escaper `html/template` applies to a string value printed by an action
in HTML text context. -/
def htmlEscape (s : String) : String := ⟨htmlEscapeChars s.data⟩

/-- Data of the `customMarshal` template.  The Go field `Type` is called `Typ`
here, `Type` being a keyword. -/
structure customMarshalData where
  Typ : String
  TypeName : String
  deriving DecidableEq, Repr

/-- Data of the two interface-method templates.  The Go field `Type` is called
`Typ` here. -/
structure interfaceMethodData where
  Typ : String
  ParentType : String
  deriving DecidableEq, Repr

/-- Rendering of the `customMarshal` template: the `MarshalJSON` wrapper that
injects the `Type` discriminator. -/
def customMarshal (data : customMarshalData) : String :=
  "\nfunc (v " ++ htmlEscape data.Typ ++ ") MarshalJSON() ([]byte, error) \x7b\n\ttype alias "
    ++ htmlEscape data.Typ
    ++ "\n\ta := struct\x7b\n\t\tType string\n\t\talias\n\t\x7d\x7b\n\t\tType: \""
    ++ htmlEscape data.TypeName
    ++ "\",\n\t\talias: (alias)(v),\n\t\x7d\n\treturn json.Marshal(a)\n\x7d\n"

/-- Rendering of the `inputMediaInterfaceMethod` template: the
`<Parent>Params` method of an attachable-media member. -/
def inputMediaInterfaceMethod (data : interfaceMethodData) : String :=
  "\nfunc (v " ++ htmlEscape data.Typ ++ ") " ++ htmlEscape data.ParentType
    ++ "Params(mediaName string, data map[string]NamedReader) ([]byte, error) \x7b\n\tif v.Media != nil \x7b\n\t\tswitch m := v.Media.(type) \x7b\n\t\tcase string:\n\t\t\t// ok, noop\n\n\t\tcase NamedReader:\n\t\t\tv.Media = \"attach://\" + mediaName\n\t\t\tdata[mediaName] = m\n\n\t\tcase io.Reader:\n\t\t\tv.Media = \"attach://\" + mediaName\n\t\t\tdata[mediaName] = NamedFile\x7bFile: m\x7d\n\n\t\tdefault:\n\t\t\treturn nil, fmt.Errorf(\"unknown type for InputMedia: %T\", v.Media)\n\t\t\x7d\n\t\x7d\n\t\n\treturn json.Marshal(v)\n\x7d\n"

/-- Rendering of the `genericInterfaceMethod` template: the accessor method
named after the family, returning the plain encoding of the value. -/
def genericInterfaceMethod (data : interfaceMethodData) : String :=
  "\nfunc (v " ++ htmlEscape data.Typ ++ ") " ++ htmlEscape data.ParentType
    ++ "() ([]byte, error) \x7b\n\treturn json.Marshal(v)\n\x7d\n"

/-- Call `customMarshalTmpl.Execute(&w, data)`: the new contents of the builder
and the error.  Writing to a `strings.Builder` and reading two string fields
cannot fail, so the error is always `nil`. -/
def customMarshalTmpl_Execute (w : String) (data : customMarshalData) : String × Option String :=
  (w ++ customMarshal data, none)

/-- Call `inputMediaInterfaceTmpl.Execute(&w, data)`. -/
def inputMediaInterfaceTmpl_Execute (w : String) (data : interfaceMethodData) :
    String × Option String :=
  (w ++ inputMediaInterfaceMethod data, none)

/-- Call `genericInterfaceTmpl.Execute(&w, data)`. -/
def genericInterfaceTmpl_Execute (w : String) (data : interfaceMethodData) :
    String × Option String :=
  (w ++ genericInterfaceMethod data, none)

/-! ## The generator -/

/-- Source `isSubtypeOf`: whether `parentType` occurs in the parent list. -/
def isSubtypeOf (tgType : TypeDescription) (parentType : String) : Bool :=
  tgType.SubtypeOf.any (fun pt => decide (parentType = pt))

/-- Source `generateInputMediaInterfaceType`. -/
def generateInputMediaInterfaceType (name : String) (tgType : TypeDescription) : String :=
  if tgType.Subtypes.length ≠ 0 then
    "\ntype " ++ name ++ " interface\x7b\n\t" ++ name
      ++ "Params(string, map[string]NamedReader) ([]byte, error)\n\x7d"
  else
    "\ntype " ++ name ++ " interface\x7b\x7d"

/-- Source `generateGenericInterfaceType`. -/
def generateGenericInterfaceType (name : String) (hasSubtypes : Bool) : String :=
  if !hasSubtypes then
    "\ntype " ++ name ++ " interface\x7b\x7d"
  else
    "\ntype " ++ name ++ " interface\x7b\n\t" ++ name ++ "() ([]byte, error)\n\x7d"

/-- The family rules in the body of the field loop of `generateTypeFields`
(the `if isSubtypeOf ... else if isSubtypeOf ...` statement), applied to a field
whose preferred type is `fieldType`: `none` is the `continue` (the field is
skipped), `some t` is the value of `fieldType` after the statement. -/
def familyFieldType (tgType : TypeDescription) (f : Field) (fieldType : String) : Option String :=
  if isSubtypeOf tgType tgTypeInlineQueryResult then
    if f.Name = "type" then none else some fieldType
  else if isSubtypeOf tgType tgTypeInputMedia then
    if f.Name = "type" then none
    else if f.Name = "media" then some tgTypeInputFile
    else some fieldType
  else some fieldType

/-- The optionality statement of the field loop: a type reference of a field
that is not required becomes a pointer. -/
def optionalFieldType (env : Externals) (d : APIDescription) (f : Field) (fieldType : String) :
    String :=
  if env.isTgType d fieldType && !f.Required then "*" ++ fieldType else fieldType

/-- The two `WriteString` calls that end the body of the field loop, for a
field whose final Go type is `fieldType`. -/
def writeField (env : Externals) (typeFields : String) (f : Field) (fieldType : String) : String :=
  typeFields ++ ("\n// " ++ f.Description)
    ++ ("\n" ++ env.snakeToTitle f.Name ++ " " ++ fieldType ++ " `json:\"" ++ f.Name
          ++ ",omitempty\"`")

/-- The loop `for _, f := range tgType.Fields` of `generateTypeFields`, on the
fields still to visit and the builder.  An error is the early return. -/
def typeFieldsLoop (env : Externals) (d : APIDescription) (tgType : TypeDescription) :
    List Field → String → Except String String
  | [], typeFields => .ok typeFields
  | f :: fs, typeFields =>
    match env.getPreferredType f with
    | (_, some err) => .error ("failed to get preferred type: " ++ err)
    | (fieldType, none) =>
      match familyFieldType tgType f fieldType with
      | none => typeFieldsLoop env d tgType fs typeFields
      | some fieldType =>
        typeFieldsLoop env d tgType fs
          (writeField env typeFields f (optionalFieldType env d f fieldType))

/-- Source `generateTypeFields`. -/
def generateTypeFields (env : Externals) (d : APIDescription) (tgType : TypeDescription) :
    String × Option String :=
  match typeFieldsLoop env d tgType tgType.Fields "" with
  | .error err => ("", some err)
  | .ok typeFields => (typeFields, none)

/-- The body of the loop `for _, parentType := range tgType.SubtypeOf` of
`generateParentTypeInterfaces`: the `switch parentType`, giving the builder
after the iteration or the error the function returns. -/
def parentTypeCase (env : Externals) (tgType : TypeDescription) (typeInterfaces : String)
    (parentType : String) : Except String String :=
  if parentType = tgTypeInputMedia then
    let typeName := trimPrefix tgType.Name tgTypeInputMedia
    match customMarshalTmpl_Execute typeInterfaces
        { Typ := tgType.Name, TypeName := env.titleToSnake typeName } with
    | (_, some err) =>
      .error ("failed to generate custom marshal function for " ++ tgType.Name ++ ": " ++ err)
    | (typeInterfaces, none) =>
      match inputMediaInterfaceTmpl_Execute typeInterfaces
          { Typ := tgType.Name, ParentType := parentType } with
      | (_, some err) =>
        .error ("failed to generate " ++ parentType ++ " interface methods for "
          ++ tgType.Name ++ ": " ++ err)
      | (typeInterfaces, none) => .ok typeInterfaces
  else if parentType = tgTypeInlineQueryResult then
    let typeName := trimPrefix tgType.Name tgTypeInlineQueryResult
    let typeName := trimPrefix typeName "Cached"
    match customMarshalTmpl_Execute typeInterfaces
        { Typ := tgType.Name, TypeName := env.titleToSnake typeName } with
    | (_, some err) =>
      .error ("failed to generate custom marshal function for " ++ tgType.Name ++ ": " ++ err)
    | (typeInterfaces, none) =>
      match genericInterfaceTmpl_Execute typeInterfaces
          { Typ := tgType.Name, ParentType := parentType } with
      | (_, some err) =>
        .error ("failed to generate " ++ parentType ++ " interface methods for "
          ++ tgType.Name ++ ": " ++ err)
      | (typeInterfaces, none) => .ok typeInterfaces
  else if parentType = tgTypeInputMessageContent ∨ parentType = tgTypePassportElementError then
    match genericInterfaceTmpl_Execute typeInterfaces
        { Typ := tgType.Name, ParentType := parentType } with
    | (_, some err) =>
      .error ("failed to generate " ++ parentType ++ " interface methods for "
        ++ tgType.Name ++ ": " ++ err)
    | (typeInterfaces, none) => .ok typeInterfaces
  else
    .error ("unable to handle parent type " ++ parentType ++ " while generating for type "
      ++ tgType.Name ++ "\n")

/-- The loop over the parent list of `generateParentTypeInterfaces`. -/
def parentTypesLoop (env : Externals) (tgType : TypeDescription) :
    List String → String → Except String String
  | [], typeInterfaces => .ok typeInterfaces
  | parentType :: rest, typeInterfaces =>
    match parentTypeCase env tgType typeInterfaces parentType with
    | .error err => .error err
    | .ok typeInterfaces => parentTypesLoop env tgType rest typeInterfaces

/-- The loop `for _, t := range replyMarkupTypes` of
`generateParentTypeInterfaces`; it stops (`break`) at the first match. -/
def replyMarkupLoop (tgType : TypeDescription) : List String → String → Except String String
  | [], typeInterfaces => .ok typeInterfaces
  | t :: ts, typeInterfaces =>
    if tgType.Name = t then
      match genericInterfaceTmpl_Execute typeInterfaces
          { Typ := tgType.Name, ParentType := "ReplyMarkup" } with
      | (_, some err) =>
        .error ("failed to generate replymarkup interface methods for " ++ tgType.Name
          ++ ": " ++ err)
      | (typeInterfaces, none) => .ok typeInterfaces
    else replyMarkupLoop tgType ts typeInterfaces

/-- Source `generateParentTypeInterfaces`. -/
def generateParentTypeInterfaces (env : Externals) (tgType : TypeDescription) :
    String × Option String :=
  match parentTypesLoop env tgType tgType.SubtypeOf "" with
  | .error err => ("", some err)
  | .ok typeInterfaces =>
    match replyMarkupLoop tgType replyMarkupTypes typeInterfaces with
    | .error err => ("", some err)
    | .ok typeInterfaces => (typeInterfaces, none)

/-- The end of `generateTypeDef`, after the `if`/`else` on the number of
fields: the parent interfaces are generated and appended to the builder. -/
def generateTypeDef_interfaces (env : Externals) (tgType : TypeDescription) (typeDef : String) :
    String × Option String :=
  match generateParentTypeInterfaces env tgType with
  | (_, some err2) => ("", some err2)
  | (interfaces, none) => (typeDef ++ interfaces, none)

/-- The beginning of `generateTypeDef`: the comment lines of the description
and of the reference URL. -/
def generateTypeDef_header (tgType : TypeDescription) : String :=
  tgType.Description.foldl (fun typeDef d => typeDef ++ ("\n// " ++ d)) "" ++ ("\n// " ++ tgType.Href)

/-- Source `generateTypeDef`. -/
def generateTypeDef (env : Externals) (d : APIDescription) (tgType : TypeDescription) :
    String × Option String :=
  let typeDef := generateTypeDef_header tgType
  if tgType.Fields.length = 0 then
    if tgType.Name = tgTypeInputMedia then
      (typeDef ++ generateInputMediaInterfaceType tgType.Name tgType, none)
    else if tgType.Name = tgTypeCallbackGame ∨ tgType.Name = tgTypeInlineQueryResult
        ∨ tgType.Name = tgTypeInputFile ∨ tgType.Name = tgTypeInputMessageContent
        ∨ tgType.Name = tgTypePassportElementError then
      (typeDef ++ generateGenericInterfaceType tgType.Name (tgType.Subtypes.length != 0), none)
    else if tgType.Name = tgTypeVoiceChatStarted then
      generateTypeDef_interfaces env tgType (typeDef ++ ("\ntype " ++ tgType.Name ++ " struct\x7b\x7d"))
    else
      ("", some ("unknown type " ++ tgType.Name
        ++ " has no fields - please check if this requires implementation"))
  else
    match generateTypeFields env d tgType with
    | (_, some err) => ("", some err)
    | (typeFields, none) =>
      generateTypeDef_interfaces env tgType
        (typeDef ++ ("\ntype " ++ tgType.Name ++ " struct \x7b") ++ typeFields ++ "\n\x7d")

/-! ## Models of the external functions, used to evaluate the generator -/

/-- Characters of `titleToSnake`: an upper-case letter becomes its lower-case
form, preceded by the separator `_` unless it is the first character. -/
def titleToSnakeChars : Bool → List Char → List Char
  | _, [] => []
  | first, c :: cs =>
    if c.isUpper then
      (if first then [c.toLower] else ['_', c.toLower]) ++ titleToSnakeChars false cs
    else c :: titleToSnakeChars false cs

/-- Modelled from the spec: `titleToSnake` is defined outside `types.go`; the
spec describes it as the conversion of a title-case name to the wire's
lowercase-with-separators convention. -/
def titleToSnake (s : String) : String := ⟨titleToSnakeChars true s.data⟩

/-- Characters of `snakeToTitle`: the separator `_` is dropped and the letter
after it, like the first one, becomes upper case. -/
def snakeToTitleChars : Bool → List Char → List Char
  | _, [] => []
  | up, c :: cs =>
    if c = '_' then snakeToTitleChars true cs
    else (if up then c.toUpper else c) :: snakeToTitleChars false cs

/-- Modelled from the spec: `snakeToTitle` is defined outside `types.go`; it is
the casing conversion from a snake-case wire name to a title-case Go name. -/
def snakeToTitle (s : String) : String := ⟨snakeToTitleChars true s.data⟩

/-- Modelled from the spec: `Field.getPreferredType` is defined outside
`types.go`; it reduces the declared alternatives of a field to one preferred
type and fails when there is none.  The priority order is schema-supplied; this
model prefers the first alternative. -/
def getPreferredType (f : Field) : String × Option String :=
  match f.Types with
  | [] => ("", some ("no preferred type for field " ++ f.Name))
  | t :: _ => (t, none)

/-- Modelled from the spec: `isTgType` is defined outside `types.go`; it tells
whether a Go type names a type of the schema. -/
def isTgType (d : APIDescription) (goType : String) : Bool :=
  d.Types.any (fun e => decide (e.1 = goType))

/-- The external functions, as modelled from the spec. -/
def specExternals : Externals :=
  { titleToSnake := titleToSnake
    snakeToTitle := snakeToTitle
    getPreferredType := getPreferredType
    isTgType := isTgType }

/-! ## The binder of the specification

The specification describes the binder by the declarations it emits for each
pair of a concrete type and a parent family.  `Glue` is one emitted
declaration; `emittedGlue` lists what the specification says is emitted. -/

/-- One declaration emitted by the binder. -/
inductive Glue where
  | marshalWrapper (data : customMarshalData)
  | mediaParamsMethod (data : interfaceMethodData)
  | accessorMethod (data : interfaceMethodData)
  deriving DecidableEq, Repr

/-- Text of an emitted declaration. -/
def Glue.render : Glue → String
  | .marshalWrapper data => customMarshal data
  | .mediaParamsMethod data => inputMediaInterfaceMethod data
  | .accessorMethod data => genericInterfaceMethod data

/-- Text of a sequence of emitted declarations, in order. -/
def renderAll : List Glue → String
  | [] => ""
  | g :: gs => g.render ++ renderAll gs

/-- The parent families the binder has a case for. -/
def knownParent (parentType : String) : Bool :=
  decide (parentType = tgTypeInputMedia ∨ parentType = tgTypeInlineQueryResult
    ∨ parentType = tgTypeInputMessageContent ∨ parentType = tgTypePassportElementError)

/-- Declarations the specification lets the binder emit for the concrete type
`name` and one parent family: wrapper and params method for attachable media,
wrapper and accessor for query results, the accessor alone for message content
and element errors. -/
def parentGlue (env : Externals) (name parentType : String) : List Glue :=
  if parentType = tgTypeInputMedia then
    [.marshalWrapper ⟨name, env.titleToSnake (trimPrefix name tgTypeInputMedia)⟩,
     .mediaParamsMethod ⟨name, parentType⟩]
  else if parentType = tgTypeInlineQueryResult then
    [.marshalWrapper
        ⟨name, env.titleToSnake (trimPrefix (trimPrefix name tgTypeInlineQueryResult) "Cached")⟩,
     .accessorMethod ⟨name, parentType⟩]
  else if parentType = tgTypeInputMessageContent ∨ parentType = tgTypePassportElementError then
    [.accessorMethod ⟨name, parentType⟩]
  else []

/-- Declarations emitted for a list of parent families, in declared order. -/
def parentsGlue (env : Externals) (name : String) : List String → List Glue
  | [] => []
  | parentType :: rest => parentGlue env name parentType ++ parentsGlue env name rest

/-- The reply-markup accessor, emitted for the allow-listed names only. -/
def replyMarkupGlue (name : String) : List Glue :=
  if name ∈ replyMarkupTypes then [.accessorMethod ⟨name, "ReplyMarkup"⟩] else []

/-- Everything the binder emits for a type: the glue of its parents, then the
reply-markup accessor. -/
def emittedGlue (env : Externals) (tgType : TypeDescription) : List Glue :=
  parentsGlue env tgType.Name tgType.SubtypeOf ++ replyMarkupGlue tgType.Name

/-! ## The field projector of the specification -/

/-- Declaration the field loop writes for a field whose Go type is
`fieldType`: a comment line and the field with its sparse json tag. -/
def fieldDecl (env : Externals) (f : Field) (fieldType : String) : String :=
  ("\n// " ++ f.Description)
    ++ ("\n" ++ env.snakeToTitle f.Name ++ " " ++ fieldType ++ " `json:\"" ++ f.Name
          ++ ",omitempty\"`")

/-- Concatenation of a list of texts, in order. -/
def joinTexts : List String → String
  | [] => ""
  | s :: ss => s ++ joinTexts ss

/-- Text the field loop contributes for one field: nothing for a suppressed
field, one declaration otherwise. -/
def projectField (env : Externals) (d : APIDescription) (tgType : TypeDescription) (f : Field) :
    String :=
  match familyFieldType tgType f (env.getPreferredType f).1 with
  | none => ""
  | some fieldType => fieldDecl env f (optionalFieldType env d f fieldType)

/-- Text the field loop contributes for a list of fields, in order. -/
def projectFields (env : Externals) (d : APIDescription) (tgType : TypeDescription) :
    List Field → String
  | [] => ""
  | f :: fs => projectField env d tgType f ++ projectFields env d tgType fs

/-- The four parent families `generateParentTypeInterfaces` has a case for. -/
def handledParents : List String :=
  [tgTypeInputMedia, tgTypeInlineQueryResult, tgTypeInputMessageContent,
    tgTypePassportElementError]

/-! ## The driver -/

/-- The zero value of `TypeDescription`, which indexing the Go map `d.Types`
gives for a name that is not a key. -/
def zeroTypeDescription : TypeDescription := ⟨"", [], "", [], [], []⟩

/-- The Go expression `d.Types[tgTypeName]`. -/
def typeOf (d : APIDescription) (tgTypeName : String) : TypeDescription :=
  (d.Types.lookup tgTypeName).getD zeroTypeDescription

/-- The text `generateTypes` writes first: the header of the generated file. -/
def generatedFileHeader : String :=
  "\n// THIS FILE IS AUTOGENERATED. DO NOT EDIT.\n// Regen by running \x27go generate\x27 in the repo root.\n\npackage gotgbot\n\nimport (\n\t\"encoding/json\"\n\t\"fmt\"\n\t\"io\"\n)\n"

/-- The loop `for _, tgTypeName := range orderedTgTypes(d)` of `generateTypes`,
on the names still to visit and the builder.  An error is the early return. -/
def typeDefsLoop (env : Externals) (d : APIDescription) :
    List String → String → Except String String
  | [], file => .ok file
  | tgTypeName :: rest, file =>
    match generateTypeDef env d (typeOf d tgTypeName) with
    | (_, some err) =>
      .error ("failed to generate type definition of " ++ tgTypeName ++ ": " ++ err)
    | (typeDef, none) => typeDefsLoop env d rest (file ++ typeDef)

/-- Source `generateTypes`.  The functions `orderedTgTypes` and
`writeGenToFile` are defined outside `types.go` and are parameters; the sink
`writeGenToFile` is a function from the text and the file name to its error.
The result is the returned error together with the list of the calls made to
the sink, each with its two arguments. -/
def generateTypes (env : Externals) (orderedTgTypes : APIDescription → List String)
    (writeGenToFile : String → String → Option String) (d : APIDescription) :
    Option String × List (String × String) :=
  let file := generatedFileHeader
  let file := file ++ generateGenericInterfaceType "ReplyMarkup" true
  match typeDefsLoop env d (orderedTgTypes d) file with
  | .error err => (some err, [])
  | .ok file => (writeGenToFile file "gen_types.go", [(file, "gen_types.go")])

/-- Text of the type definitions of a list of type names, in order, when each
of them is generated without error. -/
def typeDefsText (env : Externals) (d : APIDescription) : List String → String
  | [] => ""
  | tgTypeName :: rest =>
    (generateTypeDef env d (typeOf d tgTypeName)).1 ++ typeDefsText env d rest

/-! ## The emitted methods at run time

The templates hold Go code.  The definitions below are that code: the body of
the `<Type>InputMediaParams` method of `inputMediaInterfaceMethod` and the
wrapper struct of `customMarshal`. -/

/-- Modelled from the spec: the types `InputFile`, `NamedReader` and
`NamedFile` are declared outside `types.go`.  A dynamic value of the field
`Media`: nil, a plain string, a named binary content (a `NamedReader`, with its
own name and its stream), a bare `io.Reader`, or a value of any other Go type,
given by the name `%T` prints.  Streams are identified by a number. -/
inductive MediaValue where
  | nil
  | string (s : String)
  | namedReader (name : String) (stream : Nat)
  | reader (stream : Nat)
  | other (goType : String)
  deriving DecidableEq, Repr

/-- Modelled from the spec: a value stored in the attachment side-table, of Go
type `NamedReader`: the named content the caller gave, or the struct
`NamedFile` whose `File` is a bare stream and whose other fields are zero. -/
inductive NamedReader where
  | named (name : String) (stream : Nat)
  | namedFile (file : Nat)
  deriving DecidableEq, Repr

/-- Result of running a piece of Go code: it returns a value, or it stops with
a run-time panic, given by its message. -/
inductive Outcome (α : Type) where
  | returned (a : α)
  | panicked (msg : String)
  deriving DecidableEq, Repr

/-- The attachment side-table, a Go `map[string]NamedReader`: the nil map, or a
map given by the association list of its entries, without duplicate keys. -/
inductive SideTable where
  | nilMap
  | entries (es : List (String × NamedReader))
  deriving DecidableEq, Repr

/-- Entries of a map after the entry of `k` is set to `v`: the entry is added,
or replaced when there is one. -/
def setEntry (es : List (String × NamedReader)) (k : String) (v : NamedReader) :
    List (String × NamedReader) :=
  (k, v) :: es.filter (fun e => decide (e.1 ≠ k))

/-- Go `data[k] = v`: a write to the nil map is a run-time panic; in a map the
entry of `k` is added, or replaced when there is one. -/
def SideTable.set (data : SideTable) (k : String) (v : NamedReader) : Outcome SideTable :=
  match data with
  | .nilMap => .panicked "assignment to entry in nil map"
  | .entries es => .returned (.entries (setEntry es k v))

/-- Go `data[k]` with the presence flag; reading the nil map finds nothing. -/
def SideTable.get (data : SideTable) (k : String) : Option NamedReader :=
  match data with
  | .nilMap => none
  | .entries es => es.lookup k

/-- Go `len(data)`. -/
def SideTable.len (data : SideTable) : Nat :=
  match data with
  | .nilMap => 0
  | .entries es => es.length

/-- The statement `if v.Media != nil`, with its type switch, of the emitted
method: the new value of `v.Media` and the side-table, or the error of the
`default` case; the two cases that write to the side-table panic when it is the
nil map. -/
def inputMediaParams_switch (media : MediaValue) (mediaName : String) (data : SideTable) :
    Outcome (Except String (MediaValue × SideTable)) :=
  match media with
  | .nil => .returned (.ok (.nil, data))
  | .string s => .returned (.ok (.string s, data))
  | .namedReader name stream =>
    match SideTable.set data mediaName (.named name stream) with
    | .panicked msg => .panicked msg
    | .returned data => .returned (.ok (.string ("attach://" ++ mediaName), data))
  | .reader stream =>
    match SideTable.set data mediaName (.namedFile stream) with
    | .panicked msg => .panicked msg
    | .returned data => .returned (.ok (.string ("attach://" ++ mediaName), data))
  | .other goType => .returned (.error ("unknown type for InputMedia: " ++ goType))

/-- The emitted method `<Type>InputMediaParams(mediaName, data)`, for a value
`v` whose field `Media` is `media`.  The call `json.Marshal(v)` is the
parameter `jsonMarshal`, a function of the value of `Media` at that point, the
other fields of `v` being fixed.  When the method returns, the result is the
returned pair of bytes (`none` is nil) and error, and the side-table after the
call. -/
def inputMediaParams (jsonMarshal : MediaValue → Option String × Option String)
    (media : MediaValue) (mediaName : String) (data : SideTable) :
    Outcome ((Option String × Option String) × SideTable) :=
  match inputMediaParams_switch media mediaName data with
  | .panicked msg => .panicked msg
  | .returned (.error err) => .returned ((none, some err), data)
  | .returned (.ok (media, data)) => .returned (jsonMarshal media, data)

/-- A field of a Go struct type as written in the source: its name, its type
and the name its json tag gives it, when it has such a tag. -/
structure GoStructField where
  name : String
  goType : String
  jsonName : Option String
  deriving DecidableEq, Repr

/-- Source text of a field declaration. -/
def GoStructField.text (f : GoStructField) : String :=
  match f.jsonName with
  | none => f.name ++ " " ++ f.goType
  | some n => f.name ++ " " ++ f.goType ++ " `json:\"" ++ n ++ "\"`"

/-- Object key under which `encoding/json` writes an exported struct field:
the name of its json tag when it has one, the Go name of the field otherwise. -/
def GoStructField.jsonKey (f : GoStructField) : String :=
  match f.jsonName with
  | none => f.name
  | some n => n

/-- The field the wrapper struct of the `customMarshal` template adds in front
of the embedded `alias`: the line `Type string`, without a tag. -/
def customMarshal_typeField : GoStructField := ⟨"Type", "string", none⟩

/-- The emitted `MarshalJSON` at run time: `json.Marshal(a)` of the wrapper
struct, as the list of the members of the JSON object, the injected field
first, then the members `aliasMembers` of the embedded value. -/
def customMarshal_run (tag : String) (aliasMembers : List (String × String)) :
    List (String × String) :=
  (customMarshal_typeField.jsonKey, tag) :: aliasMembers

/-! ## Sample inputs -/

/-- A schema with the single type `Message`. -/
def sampleSchema : APIDescription :=
  ⟨[("Message", ⟨"Message", [], "", [⟨"message_id", ["int64"], true, "Id"⟩], [], []⟩)]⟩

/-- A required primitive field. -/
def sampleId : Field := ⟨"id", ["int64"], true, "Id"⟩

/-- A type-reference field that is not required. -/
def samplePinned : Field := ⟨"pinned_message", ["Message"], false, "Pinned"⟩

/-- A primitive field that is not required. -/
def sampleTitle : Field := ⟨"title", ["string"], false, "Title"⟩

/-- A struct type without parents. -/
def sampleChat : TypeDescription :=
  ⟨"Chat", ["A chat."], "https://core.telegram.org/bots/api#chat",
    [sampleId, samplePinned, sampleTitle], [], []⟩

/-- A description with the given name and parents, one field, and nothing
else. -/
def sampleType (name : String) (parents : List String) : TypeDescription :=
  ⟨name, [], "", [sampleId], [], parents⟩

/-- A `json.Marshal` for a value whose only field is `Media`: a string is
written under the key `media`, a nil value is omitted, anything else is not
supported. -/
def sampleJsonMarshal : MediaValue → Option String × Option String
  | .nil => (some "\x7b\x7d", none)
  | .string s => (some ("\x7b\"media\":\"" ++ s ++ "\"\x7d"), none)
  | _ => (none, some "json: unsupported type")

/-- A schema with the types `Message` and `Chat`, and a type without fields
that the generator does not know. -/
def sampleSchemaWithUnknown : APIDescription :=
  ⟨[("Message", ⟨"Message", [], "", [⟨"message_id", ["int64"], true, "Id"⟩], [], []⟩),
    ("Dice", ⟨"Dice", [], "", [], [], []⟩),
    ("Chat", ⟨"Chat", [], "", [⟨"id", ["int64"], true, "Id"⟩], [], []⟩)]⟩

/-- The names of the types of a schema, in the order of the association list;
a stand-in for `orderedTgTypes`. -/
def sampleOrderedTgTypes (d : APIDescription) : List String :=
  d.Types.map (fun e => e.1)

/-- A sink that accepts every text; a stand-in for `writeGenToFile`. -/
def sampleWriteGenToFile (_file _name : String) : Option String := none

/-- A type named `InputMediaPhoto` with the single parent `InputMedia`, and
with description, fields and members of its own. -/
def sampleChatAsPhoto : TypeDescription :=
  ⟨"InputMediaPhoto", ["A photo to send."], "href", [sampleId, sampleTitle], ["X"],
    ["InputMedia"]⟩

/-! ## Lemmas on the binder -/

theorem knownParent_iff_mem (p : String) : knownParent p = true ↔ p ∈ handledParents := by
  simp [knownParent, handledParents]

theorem knownParent_false_iff (p : String) : knownParent p = false ↔ p ∉ handledParents := by
  rw [← knownParent_iff_mem]; simp

theorem renderAll_append (gs hs : List Glue) :
    renderAll (gs ++ hs) = renderAll gs ++ renderAll hs := by
  induction gs with
  | nil => simp [renderAll]
  | cons g gs ih => simp [renderAll, ih, String.append_assoc]

theorem parentsGlue_append (env : Externals) (name : String) (ps qs : List String) :
    parentsGlue env name (ps ++ qs) = parentsGlue env name ps ++ parentsGlue env name qs := by
  induction ps with
  | nil => simp [parentsGlue]
  | cons p ps ih => simp [parentsGlue, ih]

theorem parentTypeCase_known (env : Externals) (tgType : TypeDescription) (w p : String)
    (hp : knownParent p = true) :
    parentTypeCase env tgType w p = .ok (w ++ renderAll (parentGlue env tgType.Name p)) := by
  unfold parentTypeCase parentGlue
  by_cases h1 : p = tgTypeInputMedia
  · simp [h1, customMarshalTmpl_Execute, inputMediaInterfaceTmpl_Execute, renderAll, Glue.render,
      String.append_assoc]
  · by_cases h2 : p = tgTypeInlineQueryResult
    · have hne : tgTypeInlineQueryResult ≠ tgTypeInputMedia := by decide
      subst h2
      simp [hne, customMarshalTmpl_Execute, genericInterfaceTmpl_Execute, renderAll,
        Glue.render, String.append_assoc]
    · by_cases h3 : p = tgTypeInputMessageContent ∨ p = tgTypePassportElementError
      · simp [h1, h2, h3, genericInterfaceTmpl_Execute, renderAll, Glue.render]
      · exfalso
        simp only [knownParent, decide_eq_true_eq] at hp
        rcases hp with hp | hp | hp | hp
        · exact h1 hp
        · exact h2 hp
        · exact h3 (Or.inl hp)
        · exact h3 (Or.inr hp)

theorem parentTypeCase_unknown (env : Externals) (tgType : TypeDescription) (w p : String)
    (hp : knownParent p = false) :
    parentTypeCase env tgType w p
      = .error ("unable to handle parent type " ++ p ++ " while generating for type "
          ++ tgType.Name ++ "\n") := by
  simp only [knownParent, decide_eq_false_iff_not, not_or] at hp
  obtain ⟨h1, h2, h3, h4⟩ := hp
  simp [parentTypeCase, h1, h2, h3, h4]

theorem parentTypesLoop_known (env : Externals) (tgType : TypeDescription) (ps : List String) :
    ∀ w : String, (∀ p ∈ ps, knownParent p = true) →
      parentTypesLoop env tgType ps w = .ok (w ++ renderAll (parentsGlue env tgType.Name ps)) := by
  induction ps with
  | nil => intro w _; simp [parentTypesLoop, parentsGlue, renderAll]
  | cons p ps ih =>
    intro w h
    have hp : knownParent p = true := h p (List.mem_cons_self _ _)
    have hps : ∀ q ∈ ps, knownParent q = true := fun q hq => h q (List.mem_cons_of_mem _ hq)
    simp [parentTypesLoop, parentTypeCase_known env tgType w p hp, ih _ hps, parentsGlue,
      renderAll_append, String.append_assoc]

theorem parentTypesLoop_unknown (env : Externals) (tgType : TypeDescription)
    (ps : List String) (u : String) (qs : List String) :
    ∀ w : String, (∀ p ∈ ps, knownParent p = true) → knownParent u = false →
      parentTypesLoop env tgType (ps ++ u :: qs) w
        = .error ("unable to handle parent type " ++ u ++ " while generating for type "
            ++ tgType.Name ++ "\n") := by
  induction ps with
  | nil =>
    intro w _ hu
    simp [parentTypesLoop, parentTypeCase_unknown env tgType w u hu]
  | cons p ps ih =>
    intro w h hu
    have hp : knownParent p = true := h p (List.mem_cons_self _ _)
    have hps : ∀ q ∈ ps, knownParent q = true := fun q hq => h q (List.mem_cons_of_mem _ hq)
    simp [parentTypesLoop, parentTypeCase_known env tgType w p hp, ih _ hps hu]

theorem parentTypesLoop_ok_known (env : Externals) (tgType : TypeDescription) (ps : List String) :
    ∀ w out : String, parentTypesLoop env tgType ps w = .ok out →
      ∀ p ∈ ps, knownParent p = true := by
  induction ps with
  | nil => intro w out _ p hp; simp at hp
  | cons q ps ih =>
    intro w out h p hp
    cases hq : knownParent q with
    | false =>
      simp [parentTypesLoop, parentTypeCase_unknown env tgType w q hq] at h
    | true =>
      simp only [parentTypesLoop, parentTypeCase_known env tgType w q hq] at h
      rcases List.mem_cons.mp hp with rfl | hp
      · exact hq
      · exact ih _ out h p hp

theorem replyMarkupLoop_eq (tgType : TypeDescription) (w : String) :
    replyMarkupLoop tgType replyMarkupTypes w
      = .ok (w ++ renderAll (replyMarkupGlue tgType.Name)) := by
  unfold replyMarkupTypes replyMarkupGlue
  by_cases h1 : tgType.Name = "InlineKeyboardMarkup"
  · simp [replyMarkupLoop, h1, genericInterfaceTmpl_Execute, renderAll, Glue.render,
      replyMarkupTypes]
  · by_cases h2 : tgType.Name = "ReplyKeyboardMarkup"
    · simp [replyMarkupLoop, h2, genericInterfaceTmpl_Execute, renderAll, Glue.render,
        replyMarkupTypes]
    · by_cases h3 : tgType.Name = "ReplyKeyboardRemove"
      · simp [replyMarkupLoop, h3, genericInterfaceTmpl_Execute, renderAll, Glue.render,
          replyMarkupTypes]
      · by_cases h4 : tgType.Name = "ForceReply"
        · simp [replyMarkupLoop, h4, genericInterfaceTmpl_Execute, renderAll, Glue.render,
            replyMarkupTypes]
        · simp [replyMarkupLoop, h1, h2, h3, h4, renderAll, replyMarkupTypes]

theorem generateParentTypeInterfaces_known (env : Externals) (tgType : TypeDescription)
    (h : ∀ p ∈ tgType.SubtypeOf, knownParent p = true) :
    generateParentTypeInterfaces env tgType = (renderAll (emittedGlue env tgType), none) := by
  simp [generateParentTypeInterfaces, parentTypesLoop_known env tgType _ "" h,
    replyMarkupLoop_eq, emittedGlue, renderAll_append]

theorem generateParentTypeInterfaces_ok_known (env : Externals) (tgType : TypeDescription)
    (h : (generateParentTypeInterfaces env tgType).2 = none) :
    ∀ p ∈ tgType.SubtypeOf, knownParent p = true := by
  unfold generateParentTypeInterfaces at h
  cases hl : parentTypesLoop env tgType tgType.SubtypeOf "" with
  | error e => simp [hl] at h
  | ok out => exact parentTypesLoop_ok_known env tgType _ "" out hl

theorem generateParentTypeInterfaces_ok (env : Externals) (tgType : TypeDescription)
    (out : String) (h : generateParentTypeInterfaces env tgType = (out, none)) :
    (∀ p ∈ tgType.SubtypeOf, knownParent p = true)
      ∧ out = renderAll (emittedGlue env tgType) := by
  have hk := generateParentTypeInterfaces_ok_known env tgType (by rw [h])
  refine ⟨hk, ?_⟩
  rw [generateParentTypeInterfaces_known env tgType hk] at h
  exact (congrArg Prod.fst h).symm

theorem replyMarkup_accessor_not_mem_parentsGlue (env : Externals) (name : String)
    (ps : List String) :
    Glue.accessorMethod ⟨name, "ReplyMarkup"⟩ ∉ parentsGlue env name ps := by
  induction ps with
  | nil => simp [parentsGlue]
  | cons p ps ih =>
    have h1 : ¬ "ReplyMarkup" = tgTypeInlineQueryResult := by decide
    have h2 : ¬ "ReplyMarkup" = tgTypeInputMessageContent := by decide
    have h3 : ¬ "ReplyMarkup" = tgTypePassportElementError := by decide
    simp only [parentsGlue, List.mem_append, not_or]
    refine ⟨?_, ih⟩
    unfold parentGlue
    split
    · simp
    · split
      · rename_i h
        subst h
        simp [h1]
      · split
        · rename_i h
          rcases h with h | h <;> subst h <;> simp [h2, h3]
        · simp

theorem trimPrefix_append (pfx rest : String) : trimPrefix (pfx ++ rest) pfx = rest := by
  simp [trimPrefix, List.isPrefixOf_iff_prefix]

theorem trimPrefix_eq_self (s pfx : String) (h : ¬ pfx.data <+: s.data) :
    trimPrefix s pfx = s := by
  simp [trimPrefix, List.isPrefixOf_iff_prefix, h]

/-! ## Lemmas on the field projector -/

theorem isSubtypeOf_iff_mem (tgType : TypeDescription) (parentType : String) :
    isSubtypeOf tgType parentType = true ↔ parentType ∈ tgType.SubtypeOf := by
  simp [isSubtypeOf, List.any_eq_true]

theorem projectFields_append (env : Externals) (d : APIDescription) (tgType : TypeDescription)
    (fs gs : List Field) :
    projectFields env d tgType (fs ++ gs)
      = projectFields env d tgType fs ++ projectFields env d tgType gs := by
  induction fs with
  | nil => simp [projectFields]
  | cons f fs ih => simp [projectFields, ih, String.append_assoc]

theorem typeFieldsLoop_ok (env : Externals) (d : APIDescription) (tgType : TypeDescription)
    (fs : List Field) :
    ∀ w out : String, typeFieldsLoop env d tgType fs w = .ok out →
      out = w ++ projectFields env d tgType fs := by
  induction fs with
  | nil =>
    intro w out h
    simp only [typeFieldsLoop, Except.ok.injEq] at h
    simp [projectFields, h]
  | cons f fs ih =>
    intro w out h
    unfold typeFieldsLoop at h
    rcases hp : env.getPreferredType f with ⟨t, e⟩
    rw [hp] at h
    cases e with
    | some err => simp at h
    | none =>
      simp only at h
      cases hfam : familyFieldType tgType f t with
      | none =>
        rw [hfam] at h
        simp only at h
        have := ih w out h
        simp [this, projectFields, projectField, hp, hfam]
      | some t2 =>
        rw [hfam] at h
        simp only at h
        have := ih _ out h
        simp [this, projectFields, projectField, hp, hfam, writeField, fieldDecl,
          String.append_assoc]

theorem generateTypeFields_ok (env : Externals) (d : APIDescription) (tgType : TypeDescription)
    (out : String) (h : generateTypeFields env d tgType = (out, none)) :
    out = projectFields env d tgType tgType.Fields := by
  unfold generateTypeFields at h
  cases hl : typeFieldsLoop env d tgType tgType.Fields "" with
  | error e => simp [hl] at h
  | ok w =>
    simp only [hl, Prod.mk.injEq, and_true] at h
    have := typeFieldsLoop_ok env d tgType _ "" w hl
    simp [← h, this]

theorem star_append_ne (r : String) : "*" ++ r ≠ r := by
  intro h
  have := congrArg String.length h
  simp only [String.length_append] at this
  have h1 : "*".length = 1 := by decide
  omega

/-! ## The claims -/

/-- C1: a type with zero fields whose name is none of the seven known
zero-field names makes `generateTypeDef` fail: the returned text is empty and
the error message is the fixed text around the name of the type, whatever the
description lines, the href, the subtypes and the parents of the type are. -/
theorem generateTypeDef_unknown_zero_field_type (env : Externals) (d : APIDescription)
    (tgType : TypeDescription) (hfields : tgType.Fields.length = 0)
    (hname : tgType.Name ∉ [tgTypeInputMedia, tgTypeCallbackGame, tgTypeInlineQueryResult,
      tgTypeInputFile, tgTypeInputMessageContent, tgTypePassportElementError,
      tgTypeVoiceChatStarted]) :
    generateTypeDef env d tgType
      = ("", some ("unknown type " ++ tgType.Name
          ++ " has no fields - please check if this requires implementation")) := by
  simp only [List.mem_cons, List.mem_singleton, List.not_mem_nil, or_false, not_or] at hname
  obtain ⟨h1, h2, h3, h4, h5, h6, h7⟩ := hname
  simp [generateTypeDef, hfields, h1, h2, h3, h4, h5, h6, h7]

/-- Witness of C1: a zero-field type named `Dice`, with description lines, a
subtype and an unknown parent. -/
theorem generateTypeDef_unknown_zero_field_type_witness :
    generateTypeDef specExternals ⟨[]⟩
        ⟨"Dice", ["An animated emoji."], "https://core.telegram.org/bots/api#dice", [],
          ["Die"], ["Unknown"]⟩
      = ("", some "unknown type Dice has no fields - please check if this requires implementation") :=
  generateTypeDef_unknown_zero_field_type specExternals ⟨[]⟩
    ⟨"Dice", ["An animated emoji."], "https://core.telegram.org/bots/api#dice", [],
      ["Die"], ["Unknown"]⟩ (by decide) (by decide)

/-- C2, evaluated at a member of both the query-result and the attachable-media
family: the `media` field keeps its schema-declared type `string`; the override
to `InputFile` is not applied. -/
theorem generateTypeFields_media_of_both_families :
    generateTypeFields specExternals ⟨[]⟩
        ⟨"InputMediaPhoto", [], "", [⟨"media", ["string"], true, "File to send"⟩], [],
          ["InlineQueryResult", "InputMedia"]⟩
      = ("\n// File to send\nMedia string `json:\"media,omitempty\"`", none) := by
  decide

/-- C3: when the parent list contains `InputMedia` or `InlineQueryResult`, a
successful `generateTypeFields` returns exactly one declaration for each field
whose wire name is not `type`, in field order, and none for a field named
`type`: every declaration carries the wire name of its field, which differs
from `type`. -/
theorem generateTypeFields_drops_type_field (env : Externals) (d : APIDescription)
    (tgType : TypeDescription) (out : String)
    (hfam : tgTypeInputMedia ∈ tgType.SubtypeOf ∨ tgTypeInlineQueryResult ∈ tgType.SubtypeOf)
    (hok : generateTypeFields env d tgType = (out, none)) :
    ∃ T : Field → String,
      out = joinTexts ((tgType.Fields.filter (fun f => decide (f.Name ≠ "type"))).map
              (fun f => fieldDecl env f (T f)))
      ∧ (∀ f ∈ tgType.Fields.filter (fun f => decide (f.Name ≠ "type")), f.Name ≠ "type")
      ∧ (∀ f ∈ tgType.Fields, f.Name ≠ "type" →
          f ∈ tgType.Fields.filter (fun f => decide (f.Name ≠ "type"))) := by
  have hout := generateTypeFields_ok env d tgType out hok
  refine ⟨fun f => optionalFieldType env d f
    ((familyFieldType tgType f (env.getPreferredType f).1).getD ""), ?_, ?_, ?_⟩
  · rw [hout]
    have key : ∀ f : Field, familyFieldType tgType f (env.getPreferredType f).1 = none
        ↔ f.Name = "type" := by
      intro f
      unfold familyFieldType
      by_cases hq : isSubtypeOf tgType tgTypeInlineQueryResult = true
      · by_cases hn : f.Name = "type" <;> simp [hq, hn]
      · have hm : isSubtypeOf tgType tgTypeInputMedia = true := by
          rcases hfam with h | h
          · exact (isSubtypeOf_iff_mem _ _).2 h
          · exact absurd ((isSubtypeOf_iff_mem _ _).2 h) hq
        by_cases hn : f.Name = "type"
        · simp [hq, hm, hn]
        · by_cases hmed : f.Name = "media" <;> simp [hq, hm, hn, hmed]
    generalize tgType.Fields = fs
    induction fs with
    | nil => simp [projectFields, joinTexts]
    | cons f fs ih =>
      by_cases hn : f.Name = "type"
      · have hnone := (key f).2 hn
        simp [projectFields, projectField, hnone, List.filter, hn, ih]
      · cases hsome : familyFieldType tgType f (env.getPreferredType f).1 with
        | none => exact absurd ((key f).1 hsome) hn
        | some t =>
          simp [projectFields, projectField, hsome, List.filter, hn, ih, joinTexts]
  · intro f hf
    simpa using (List.mem_filter.1 hf).2
  · intro f hf hn
    exact List.mem_filter.2 ⟨hf, by simpa using hn⟩

/-- Witness of C3: an attachable-media member with the fields `type`, `media`
and `caption`. -/
theorem generateTypeFields_drops_type_field_witness :
    (tgTypeInputMedia ∈ ["InputMedia"] ∨ tgTypeInlineQueryResult ∈ ["InputMedia"])
    ∧ generateTypeFields specExternals ⟨[]⟩
        ⟨"InputMediaPhoto", [], "",
          [⟨"type", ["string"], true, "Type"⟩, ⟨"media", ["string"], true, "File"⟩,
           ⟨"caption", ["string"], false, "Caption"⟩], [], ["InputMedia"]⟩
      = ("\n// File\nMedia InputFile `json:\"media,omitempty\"`"
          ++ "\n// Caption\nCaption string `json:\"caption,omitempty\"`", none)
    ∧ ∃ T : Field → String,
      "\n// File\nMedia InputFile `json:\"media,omitempty\"`"
          ++ "\n// Caption\nCaption string `json:\"caption,omitempty\"`"
        = joinTexts (([⟨"type", ["string"], true, "Type"⟩, ⟨"media", ["string"], true, "File"⟩,
              ⟨"caption", ["string"], false, "Caption"⟩].filter
                (fun f => decide (f.Name ≠ "type"))).map
              (fun f => fieldDecl specExternals f (T f))) :=
  ⟨by decide, by decide,
    (generateTypeFields_drops_type_field specExternals ⟨[]⟩
      ⟨"InputMediaPhoto", [], "",
        [⟨"type", ["string"], true, "Type"⟩, ⟨"media", ["string"], true, "File"⟩,
         ⟨"caption", ["string"], false, "Caption"⟩], [], ["InputMedia"]⟩ _
      (by decide) (by decide)).imp (fun _ h => h.1)⟩

/-- C4: for a field that `generateTypeFields` emits, with resolved type `r`
(the preferred type after the media override), the declaration written
between the text of the fields before it and the text of the fields after it
has a Go type `T` that is `*r` exactly when `r` names a schema type and the
field is not required, and is `r` itself exactly when that is not the case. -/
theorem generateTypeFields_pointer_iff (env : Externals) (d : APIDescription)
    (tgType : TypeDescription) (pre : List Field) (f : Field) (post : List Field)
    (out r : String) (hsplit : tgType.Fields = pre ++ f :: post)
    (hok : generateTypeFields env d tgType = (out, none))
    (hr : familyFieldType tgType f (env.getPreferredType f).1 = some r) :
    ∃ T : String,
      out = projectFields env d tgType pre ++ fieldDecl env f T
              ++ projectFields env d tgType post
      ∧ (T = "*" ++ r ↔ (env.isTgType d r = true ∧ f.Required = false))
      ∧ (T = r ↔ ¬ (env.isTgType d r = true ∧ f.Required = false)) := by
  have hout := generateTypeFields_ok env d tgType out hok
  refine ⟨optionalFieldType env d f r, ?_, ?_, ?_⟩
  · rw [hout, hsplit, projectFields_append]
    simp [projectFields, projectField, hr, String.append_assoc]
  · unfold optionalFieldType
    by_cases hc : env.isTgType d r = true ∧ f.Required = false
    · simp [hc.1, hc.2]
    · have hc2 : (env.isTgType d r && !f.Required) = false := by
        rcases Bool.eq_false_or_eq_true (env.isTgType d r) with h1 | h1 <;>
          rcases Bool.eq_false_or_eq_true f.Required with h2 | h2 <;> simp_all
      simp only [hc2, Bool.false_eq_true, if_false, hc, iff_false]
      exact fun h => star_append_ne r h.symm
  · unfold optionalFieldType
    by_cases hc : env.isTgType d r = true ∧ f.Required = false
    · simp only [hc.1, hc.2, Bool.not_false, Bool.and_self, if_true, and_self, not_true,
        iff_false]
      exact star_append_ne r
    · have hc2 : (env.isTgType d r && !f.Required) = false := by
        rcases Bool.eq_false_or_eq_true (env.isTgType d r) with h1 | h1 <;>
          rcases Bool.eq_false_or_eq_true f.Required with h2 | h2 <;> simp_all
      simp [hc2, hc]

/-- Witness of C4: in `Chat`, the field `pinned_message` refers to the schema
type `Message` and is not required; it is declared with type `*Message`. -/
theorem generateTypeFields_pointer_iff_witness :
    sampleChat.Fields = [sampleId] ++ samplePinned :: [sampleTitle]
    ∧ generateTypeFields specExternals sampleSchema sampleChat
        = ("\n// Id\nId int64 `json:\"id,omitempty\"`"
            ++ "\n// Pinned\nPinnedMessage *Message `json:\"pinned_message,omitempty\"`"
            ++ "\n// Title\nTitle string `json:\"title,omitempty\"`", none)
    ∧ familyFieldType sampleChat samplePinned (specExternals.getPreferredType samplePinned).1
        = some "Message"
    ∧ ∃ T : String,
        "\n// Id\nId int64 `json:\"id,omitempty\"`"
            ++ "\n// Pinned\nPinnedMessage *Message `json:\"pinned_message,omitempty\"`"
            ++ "\n// Title\nTitle string `json:\"title,omitempty\"`"
          = projectFields specExternals sampleSchema sampleChat [sampleId]
              ++ fieldDecl specExternals samplePinned T
              ++ projectFields specExternals sampleSchema sampleChat [sampleTitle]
        ∧ (T = "*" ++ "Message"
            ↔ (specExternals.isTgType sampleSchema "Message" = true
                ∧ samplePinned.Required = false))
        ∧ (T = "Message"
            ↔ ¬ (specExternals.isTgType sampleSchema "Message" = true
                ∧ samplePinned.Required = false)) :=
  ⟨by decide, by decide, by decide,
    generateTypeFields_pointer_iff specExternals sampleSchema sampleChat [sampleId] samplePinned
      [sampleTitle] _ "Message" (by decide) (by decide) (by decide)⟩

/-- C5, as stated, fails for a reply-markup name: `ForceReply` has no parent,
yet the output is not empty, it is the `ReplyMarkup` accessor method. -/
theorem generateParentTypeInterfaces_forceReply_without_parents :
    (sampleType "ForceReply" []).SubtypeOf = []
    ∧ generateParentTypeInterfaces specExternals (sampleType "ForceReply" [])
        = ("\nfunc (v ForceReply) ReplyMarkup() ([]byte, error) \x7b\n\treturn json.Marshal(v)\n\x7d\n",
            none)
    ∧ (generateParentTypeInterfaces specExternals (sampleType "ForceReply" [])).1 ≠ "" := by
  decide

/-- C5, amended: for a type with an empty parent list
`generateParentTypeInterfaces` succeeds and emits no `MarshalJSON` wrapper; its
output is the empty string when the name is not a reply-markup name, and is
exactly the `ReplyMarkup` accessor method when it is one. -/
theorem generateParentTypeInterfaces_without_parents (env : Externals)
    (tgType : TypeDescription) (hparents : tgType.SubtypeOf = []) :
    generateParentTypeInterfaces env tgType = (renderAll (emittedGlue env tgType), none)
    ∧ (∀ data, Glue.marshalWrapper data ∉ emittedGlue env tgType)
    ∧ (tgType.Name ∉ replyMarkupTypes → generateParentTypeInterfaces env tgType = ("", none))
    ∧ (tgType.Name ∈ replyMarkupTypes →
        generateParentTypeInterfaces env tgType
          = (genericInterfaceMethod ⟨tgType.Name, "ReplyMarkup"⟩, none)) := by
  have hk : ∀ p ∈ tgType.SubtypeOf, knownParent p = true := by simp [hparents]
  have heq := generateParentTypeInterfaces_known env tgType hk
  have hglue : emittedGlue env tgType = replyMarkupGlue tgType.Name := by
    simp [emittedGlue, hparents, parentsGlue]
  refine ⟨heq, ?_, ?_, ?_⟩
  · intro data
    rw [hglue]
    unfold replyMarkupGlue
    split <;> simp
  · intro hn
    rw [heq, hglue]
    simp [replyMarkupGlue, hn, renderAll]
  · intro hn
    rw [heq, hglue]
    simp [replyMarkupGlue, hn, renderAll, Glue.render]

/-- Witness of C5, amended: `Chat` has no parent and is not a reply-markup
name. -/
theorem generateParentTypeInterfaces_without_parents_witness :
    sampleChat.SubtypeOf = []
    ∧ (sampleChat.Name ∉ replyMarkupTypes →
        generateParentTypeInterfaces specExternals sampleChat = ("", none)) :=
  ⟨by decide,
    (generateParentTypeInterfaces_without_parents specExternals sampleChat (by decide)).2.2.1⟩

/-- C6: when `generateParentTypeInterfaces` succeeds, its output is the text of
the emitted declarations, and among them the `ReplyMarkup` accessor of the type
occurs exactly once when the name is one of the four reply-markup names and not
at all for any other name, whatever the fields and the parents are.  For a
reply-markup name the output ends with the text of that method. -/
theorem generateParentTypeInterfaces_replyMarkup_accessor (env : Externals)
    (tgType : TypeDescription) (out : String)
    (hok : generateParentTypeInterfaces env tgType = (out, none)) :
    out = renderAll (emittedGlue env tgType)
    ∧ (emittedGlue env tgType).count (Glue.accessorMethod ⟨tgType.Name, "ReplyMarkup"⟩)
        = (if tgType.Name ∈ replyMarkupTypes then 1 else 0)
    ∧ (tgType.Name ∈ replyMarkupTypes →
        out = renderAll (parentsGlue env tgType.Name tgType.SubtypeOf)
          ++ ("\nfunc (v " ++ tgType.Name
              ++ ") ReplyMarkup() ([]byte, error) \x7b\n\treturn json.Marshal(v)\n\x7d\n")) := by
  obtain ⟨_, hout⟩ := generateParentTypeInterfaces_ok env tgType out hok
  have hnot := replyMarkup_accessor_not_mem_parentsGlue env tgType.Name tgType.SubtypeOf
  refine ⟨hout, ?_, ?_⟩
  · simp only [emittedGlue, List.count_append, List.count_eq_zero.2 hnot, Nat.zero_add]
    unfold replyMarkupGlue
    split <;> simp
  · intro hn
    rw [hout]
    simp only [emittedGlue, renderAll_append, replyMarkupGlue, hn, if_true, renderAll,
      Glue.render, genericInterfaceMethod, String.append_empty]
    simp only [replyMarkupTypes, List.mem_cons, List.mem_singleton, List.not_mem_nil,
      or_false] at hn
    have hR : htmlEscape "ReplyMarkup" = "ReplyMarkup" := by decide
    rcases hn with h | h | h | h <;> rw [h, hR] <;>
      exact congrArg _ (by decide)

/-- Witness of C6: `ReplyKeyboardRemove`, declared with a parent. -/
theorem generateParentTypeInterfaces_replyMarkup_accessor_witness :
    generateParentTypeInterfaces specExternals
        (sampleType "ReplyKeyboardRemove" ["InputMessageContent"])
      = ("\nfunc (v ReplyKeyboardRemove) InputMessageContent() ([]byte, error) \x7b\n\treturn json.Marshal(v)\n\x7d\n"
          ++ "\nfunc (v ReplyKeyboardRemove) ReplyMarkup() ([]byte, error) \x7b\n\treturn json.Marshal(v)\n\x7d\n",
          none)
    ∧ (emittedGlue specExternals
          (sampleType "ReplyKeyboardRemove" ["InputMessageContent"])).count
        (Glue.accessorMethod ⟨"ReplyKeyboardRemove", "ReplyMarkup"⟩) = 1 :=
  ⟨by rfl,
    (generateParentTypeInterfaces_replyMarkup_accessor specExternals
      (sampleType "ReplyKeyboardRemove" ["InputMessageContent"])
      ("\nfunc (v ReplyKeyboardRemove) InputMessageContent() ([]byte, error) \x7b\n\treturn json.Marshal(v)\n\x7d\n"
          ++ "\nfunc (v ReplyKeyboardRemove) ReplyMarkup() ([]byte, error) \x7b\n\treturn json.Marshal(v)\n\x7d\n")
      (by rfl)).2.1⟩

/-- C7: for a parent `InlineQueryResult` of a type on which
`generateParentTypeInterfaces` succeeds, the code emitted for that parent,
between the glue of the parents before it and the glue of what follows, is the
`MarshalJSON` wrapper whose tag is `titleToSnake` of the type name with the
prefix `InlineQueryResult` and then the prefix `Cached` trimmed, followed by
the `InlineQueryResult` accessor.  In particular a name made of
`InlineQueryResult`, `Cached` and a rest gets the tag `titleToSnake rest`. -/
theorem generateParentTypeInterfaces_inlineQueryResult_tag (env : Externals)
    (tgType : TypeDescription) (ps qs : List String) (out : String)
    (hsplit : tgType.SubtypeOf = ps ++ tgTypeInlineQueryResult :: qs)
    (hok : generateParentTypeInterfaces env tgType = (out, none)) :
    out = renderAll (parentsGlue env tgType.Name ps)
        ++ (customMarshal ⟨tgType.Name,
              env.titleToSnake (trimPrefix (trimPrefix tgType.Name "InlineQueryResult") "Cached")⟩
            ++ genericInterfaceMethod ⟨tgType.Name, "InlineQueryResult"⟩)
        ++ renderAll (parentsGlue env tgType.Name qs ++ replyMarkupGlue tgType.Name)
    ∧ (∀ rest : String, tgType.Name = "InlineQueryResult" ++ ("Cached" ++ rest) →
        env.titleToSnake (trimPrefix (trimPrefix tgType.Name "InlineQueryResult") "Cached")
          = env.titleToSnake rest) := by
  obtain ⟨_, hout⟩ := generateParentTypeInterfaces_ok env tgType out hok
  refine ⟨?_, ?_⟩
  · have hne : tgTypeInlineQueryResult ≠ tgTypeInputMedia := by decide
    rw [hout]
    simp only [emittedGlue, hsplit, parentsGlue_append, parentsGlue, renderAll_append]
    simp [parentGlue, hne, renderAll, Glue.render, String.append_assoc, tgTypeInlineQueryResult]
  · intro rest hrest
    rw [hrest, trimPrefix_append, trimPrefix_append]

/-- Witness of C7: `InlineQueryResultCachedPhoto` gets the tag `photo` and
`InlineQueryResultVenue` the tag `venue`. -/
theorem generateParentTypeInterfaces_inlineQueryResult_tag_witness :
    (generateParentTypeInterfaces specExternals
        (sampleType "InlineQueryResultCachedPhoto" ["InlineQueryResult"])
      = (customMarshal ⟨"InlineQueryResultCachedPhoto", "photo"⟩
          ++ genericInterfaceMethod ⟨"InlineQueryResultCachedPhoto", "InlineQueryResult"⟩, none)
      ∧ customMarshal ⟨"InlineQueryResultCachedPhoto", "photo"⟩
          ++ genericInterfaceMethod ⟨"InlineQueryResultCachedPhoto", "InlineQueryResult"⟩
        = renderAll (parentsGlue specExternals "InlineQueryResultCachedPhoto" [])
          ++ (customMarshal ⟨"InlineQueryResultCachedPhoto",
                specExternals.titleToSnake
                  (trimPrefix (trimPrefix "InlineQueryResultCachedPhoto" "InlineQueryResult")
                    "Cached")⟩
              ++ genericInterfaceMethod ⟨"InlineQueryResultCachedPhoto", "InlineQueryResult"⟩)
          ++ renderAll (parentsGlue specExternals "InlineQueryResultCachedPhoto" []
              ++ replyMarkupGlue "InlineQueryResultCachedPhoto"))
    ∧ generateParentTypeInterfaces specExternals
        (sampleType "InlineQueryResultVenue" ["InlineQueryResult"])
      = ("\nfunc (v InlineQueryResultVenue) MarshalJSON() ([]byte, error) \x7b\n\ttype alias InlineQueryResultVenue\n\ta := struct\x7b\n\t\tType string\n\t\talias\n\t\x7d\x7b\n\t\tType: \"venue\",\n\t\talias: (alias)(v),\n\t\x7d\n\treturn json.Marshal(a)\n\x7d\n"
          ++ "\nfunc (v InlineQueryResultVenue) InlineQueryResult() ([]byte, error) \x7b\n\treturn json.Marshal(v)\n\x7d\n",
          none) :=
  ⟨⟨by rfl,
    (generateParentTypeInterfaces_inlineQueryResult_tag specExternals
      (sampleType "InlineQueryResultCachedPhoto" ["InlineQueryResult"]) [] []
      (customMarshal ⟨"InlineQueryResultCachedPhoto", "photo"⟩
          ++ genericInterfaceMethod ⟨"InlineQueryResultCachedPhoto", "InlineQueryResult"⟩)
      (by rfl) (by rfl)).1⟩, by rfl⟩

/-- C8: for a parent `InputMedia` of a type on which
`generateParentTypeInterfaces` succeeds, the code emitted for that parent is
the `MarshalJSON` wrapper whose tag is `titleToSnake` of the type name with
only the prefix `InputMedia` trimmed, followed by the `InputMediaParams`
method.  A name made of `InputMedia` and a rest gets the tag
`titleToSnake rest`, also when the rest starts with `Cached`; a name that does
not start with `InputMedia` is converted whole. -/
theorem generateParentTypeInterfaces_inputMedia_tag (env : Externals)
    (tgType : TypeDescription) (ps qs : List String) (out : String)
    (hsplit : tgType.SubtypeOf = ps ++ tgTypeInputMedia :: qs)
    (hok : generateParentTypeInterfaces env tgType = (out, none)) :
    out = renderAll (parentsGlue env tgType.Name ps)
        ++ (customMarshal ⟨tgType.Name, env.titleToSnake (trimPrefix tgType.Name "InputMedia")⟩
            ++ inputMediaInterfaceMethod ⟨tgType.Name, "InputMedia"⟩)
        ++ renderAll (parentsGlue env tgType.Name qs ++ replyMarkupGlue tgType.Name)
    ∧ (∀ rest : String, tgType.Name = "InputMedia" ++ rest →
        env.titleToSnake (trimPrefix tgType.Name "InputMedia") = env.titleToSnake rest)
    ∧ (¬ "InputMedia".data <+: tgType.Name.data →
        env.titleToSnake (trimPrefix tgType.Name "InputMedia") = env.titleToSnake tgType.Name) := by
  obtain ⟨_, hout⟩ := generateParentTypeInterfaces_ok env tgType out hok
  refine ⟨?_, ?_, ?_⟩
  · rw [hout]
    simp only [emittedGlue, hsplit, parentsGlue_append, parentsGlue, renderAll_append]
    simp [parentGlue, renderAll, Glue.render, String.append_assoc, tgTypeInputMedia]
  · intro rest hrest
    rw [hrest, trimPrefix_append]
  · intro hnot
    rw [trimPrefix_eq_self _ _ hnot]

/-- Witness of C8: `InputMediaCachedPhoto` keeps `Cached` in its tag,
`cached_photo`. -/
theorem generateParentTypeInterfaces_inputMedia_tag_witness :
    generateParentTypeInterfaces specExternals
        (sampleType "InputMediaCachedPhoto" ["InputMedia"])
      = (customMarshal ⟨"InputMediaCachedPhoto", "cached_photo"⟩
          ++ inputMediaInterfaceMethod ⟨"InputMediaCachedPhoto", "InputMedia"⟩, none)
    ∧ customMarshal ⟨"InputMediaCachedPhoto", "cached_photo"⟩
          ++ inputMediaInterfaceMethod ⟨"InputMediaCachedPhoto", "InputMedia"⟩
        = renderAll (parentsGlue specExternals "InputMediaCachedPhoto" [])
          ++ (customMarshal ⟨"InputMediaCachedPhoto",
                specExternals.titleToSnake (trimPrefix "InputMediaCachedPhoto" "InputMedia")⟩
              ++ inputMediaInterfaceMethod ⟨"InputMediaCachedPhoto", "InputMedia"⟩)
          ++ renderAll (parentsGlue specExternals "InputMediaCachedPhoto" []
              ++ replyMarkupGlue "InputMediaCachedPhoto") :=
  ⟨by rfl,
    (generateParentTypeInterfaces_inputMedia_tag specExternals
      (sampleType "InputMediaCachedPhoto" ["InputMedia"]) [] []
      (customMarshal ⟨"InputMediaCachedPhoto", "cached_photo"⟩
          ++ inputMediaInterfaceMethod ⟨"InputMediaCachedPhoto", "InputMedia"⟩)
      (by rfl) (by rfl)).1⟩

/-- C9: when the parent list holds a name that is none of the four handled
families, `generateParentTypeInterfaces` returns the empty text and an error
whose message is made of the first such parent and of the name of the type,
also when the parents before it were bound. -/
theorem generateParentTypeInterfaces_unknown_parent (env : Externals)
    (tgType : TypeDescription) (ps : List String) (u : String) (qs : List String)
    (hsplit : tgType.SubtypeOf = ps ++ u :: qs)
    (hps : ∀ p ∈ ps, p ∈ handledParents) (hu : u ∉ handledParents) :
    generateParentTypeInterfaces env tgType
      = ("", some ("unable to handle parent type " ++ u ++ " while generating for type "
          ++ tgType.Name ++ "\n")) := by
  have hps2 : ∀ p ∈ ps, knownParent p = true := fun p hp => (knownParent_iff_mem p).2 (hps p hp)
  have hu2 : knownParent u = false := (knownParent_false_iff u).2 hu
  simp [generateParentTypeInterfaces, hsplit,
    parentTypesLoop_unknown env tgType ps u qs "" hps2 hu2]

/-- Witness of C9: the unknown parent `MaybeInaccessibleMessage` comes after a
parent that is bound. -/
theorem generateParentTypeInterfaces_unknown_parent_witness :
    (sampleType "Message" ["InputMessageContent", "MaybeInaccessibleMessage", "Other"]).SubtypeOf
      = ["InputMessageContent"] ++ "MaybeInaccessibleMessage" :: ["Other"]
    ∧ (∀ p ∈ ["InputMessageContent"], p ∈ handledParents)
    ∧ "MaybeInaccessibleMessage" ∉ handledParents
    ∧ generateParentTypeInterfaces specExternals
        (sampleType "Message" ["InputMessageContent", "MaybeInaccessibleMessage", "Other"])
      = ("", some ("unable to handle parent type " ++ "MaybeInaccessibleMessage"
          ++ " while generating for type "
          ++ (sampleType "Message"
                ["InputMessageContent", "MaybeInaccessibleMessage", "Other"]).Name ++ "\n")) :=
  ⟨by decide, by decide, by decide,
    generateParentTypeInterfaces_unknown_parent specExternals
      (sampleType "Message" ["InputMessageContent", "MaybeInaccessibleMessage", "Other"])
      ["InputMessageContent"] "MaybeInaccessibleMessage" ["Other"]
      (by decide) (by decide) (by decide)⟩

/-- C10, as stated, fails: the type `Game` declares the family `CallbackGame`
as a parent, and `generateParentTypeInterfaces` returns an error. -/
theorem generateParentTypeInterfaces_callbackGame_parent :
    tgTypeCallbackGame ∈ (sampleType "Game" ["CallbackGame"]).SubtypeOf
    ∧ generateParentTypeInterfaces specExternals (sampleType "Game" ["CallbackGame"])
      = ("", some "unable to handle parent type CallbackGame while generating for type Game\n") := by
  decide

/-- C10, amended: `generateParentTypeInterfaces` has no marker-family case.  A
parent named `CallbackGame` or `InputFile`, coming after parents that are
handled, makes it fail with the error that names the parent and the type; a
parent named `InlineQueryResult`, `InputMessageContent` or
`PassportElementError` gets the accessor method of the family whenever the
function succeeds. -/
theorem generateParentTypeInterfaces_zero_field_family_parent (env : Externals)
    (tgType : TypeDescription) (ps : List String) (p : String) (qs : List String)
    (hsplit : tgType.SubtypeOf = ps ++ p :: qs) (hps : ∀ q ∈ ps, q ∈ handledParents) :
    (p = tgTypeCallbackGame ∨ p = tgTypeInputFile →
      generateParentTypeInterfaces env tgType
        = ("", some ("unable to handle parent type " ++ p ++ " while generating for type "
            ++ tgType.Name ++ "\n")))
    ∧ (p = tgTypeInlineQueryResult ∨ p = tgTypeInputMessageContent
          ∨ p = tgTypePassportElementError →
        ∀ out, generateParentTypeInterfaces env tgType = (out, none) →
          out = renderAll (emittedGlue env tgType)
          ∧ Glue.accessorMethod ⟨tgType.Name, p⟩ ∈ emittedGlue env tgType) := by
  have hps2 : ∀ q ∈ ps, knownParent q = true := fun q hq => (knownParent_iff_mem q).2 (hps q hq)
  refine ⟨?_, ?_⟩
  · intro hp
    have hu : knownParent p = false := by
      rcases hp with h | h <;> subst h <;> decide
    simp [generateParentTypeInterfaces, hsplit,
      parentTypesLoop_unknown env tgType ps p qs "" hps2 hu]
  · intro hp out hok
    obtain ⟨_, hout⟩ := generateParentTypeInterfaces_ok env tgType out hok
    refine ⟨hout, ?_⟩
    simp only [emittedGlue, hsplit, parentsGlue_append, parentsGlue, List.mem_append]
    refine Or.inl (Or.inr (Or.inl ?_))
    have h1 : tgTypeInlineQueryResult ≠ tgTypeInputMedia := by decide
    have h2 : tgTypeInputMessageContent ≠ tgTypeInputMedia := by decide
    have h3 : tgTypeInputMessageContent ≠ tgTypeInlineQueryResult := by decide
    have h4 : tgTypePassportElementError ≠ tgTypeInputMedia := by decide
    have h5 : tgTypePassportElementError ≠ tgTypeInlineQueryResult := by decide
    rcases hp with h | h | h <;> subst h <;> simp [parentGlue, h1, h2, h3, h4, h5]

/-- Witness of C10, amended: `InputFile` declared as a parent after a handled
one. -/
theorem generateParentTypeInterfaces_zero_field_family_parent_witness :
    (sampleType "Document" ["PassportElementError", "InputFile"]).SubtypeOf
      = ["PassportElementError"] ++ "InputFile" :: []
    ∧ (∀ q ∈ ["PassportElementError"], q ∈ handledParents)
    ∧ generateParentTypeInterfaces specExternals
        (sampleType "Document" ["PassportElementError", "InputFile"])
      = ("", some ("unable to handle parent type " ++ "InputFile"
          ++ " while generating for type "
          ++ (sampleType "Document" ["PassportElementError", "InputFile"]).Name ++ "\n")) :=
  ⟨by decide, by decide,
    (generateParentTypeInterfaces_zero_field_family_parent specExternals
      (sampleType "Document" ["PassportElementError", "InputFile"])
      ["PassportElementError"] "InputFile" [] (by decide) (by decide)).1 (Or.inr (by decide))⟩

/-- C11: a zero-field type named `CallbackGame`, `InlineQueryResult`,
`InputFile`, `InputMessageContent` or `PassportElementError` makes
`generateTypeDef` succeed with the comment header followed by one interface
declaration; the declaration has the single method `<Name>() ([]byte, error)`
exactly when the list `Subtypes` is not empty, and is the method-less
`interface` otherwise. -/
theorem generateTypeDef_generic_family (env : Externals) (d : APIDescription)
    (tgType : TypeDescription) (hfields : tgType.Fields.length = 0)
    (hname : tgType.Name ∈ [tgTypeCallbackGame, tgTypeInlineQueryResult, tgTypeInputFile,
      tgTypeInputMessageContent, tgTypePassportElementError]) :
    ∃ decl : String,
      generateTypeDef env d tgType = (generateTypeDef_header tgType ++ decl, none)
      ∧ (tgType.Subtypes = [] → decl = "\ntype " ++ tgType.Name ++ " interface\x7b\x7d")
      ∧ (decl = "\ntype " ++ tgType.Name ++ " interface\x7b\n\t" ++ tgType.Name
                  ++ "() ([]byte, error)\n\x7d"
          ↔ tgType.Subtypes ≠ []) := by
  have hne : tgType.Name ≠ tgTypeInputMedia := by
    intro h
    rw [h] at hname
    exact absurd hname (by decide)
  have hor : tgType.Name = tgTypeCallbackGame ∨ tgType.Name = tgTypeInlineQueryResult
      ∨ tgType.Name = tgTypeInputFile ∨ tgType.Name = tgTypeInputMessageContent
      ∨ tgType.Name = tgTypePassportElementError := by
    simpa using hname
  refine ⟨generateGenericInterfaceType tgType.Name (tgType.Subtypes.length != 0), ?_, ?_, ?_⟩
  · simp [generateTypeDef, hfields, hne, hor]
  · intro hs
    simp [generateGenericInterfaceType, hs]
  · by_cases hs : tgType.Subtypes = []
    · have hdiff : "\ntype " ++ tgType.Name ++ " interface\x7b\x7d"
          ≠ "\ntype " ++ tgType.Name ++ " interface\x7b\n\t" ++ tgType.Name
              ++ "() ([]byte, error)\n\x7d" := by
        rcases hor with h | h | h | h | h <;> rw [h] <;> decide
      simp only [generateGenericInterfaceType, hs, List.length_nil, bne_self_eq_false,
        Bool.not_false, if_true, ne_eq, not_true, iff_false]
      exact hdiff
    · have hlen : (tgType.Subtypes.length != 0) = true := by
        simp [bne_iff_ne, List.length_eq_zero, hs]
      simp [generateGenericInterfaceType, hlen, hs]

/-- Witness of C11: the family `InputMessageContent` with two members. -/
theorem generateTypeDef_generic_family_witness :
    (⟨"InputMessageContent", ["Content of a message."], "href", [],
        ["InputTextMessageContent", "InputLocationMessageContent"], []⟩
          : TypeDescription).Fields.length = 0
    ∧ ∃ decl : String,
      generateTypeDef specExternals sampleSchema
          ⟨"InputMessageContent", ["Content of a message."], "href", [],
            ["InputTextMessageContent", "InputLocationMessageContent"], []⟩
        = ("\n// Content of a message.\n// href" ++ decl, none)
      ∧ (decl = "\ntype " ++ "InputMessageContent" ++ " interface\x7b\n\t"
                  ++ "InputMessageContent" ++ "() ([]byte, error)\n\x7d"
          ↔ ["InputTextMessageContent", "InputLocationMessageContent"] ≠ []) :=
  ⟨by decide,
    (generateTypeDef_generic_family specExternals sampleSchema
      ⟨"InputMessageContent", ["Content of a message."], "href", [],
        ["InputTextMessageContent", "InputLocationMessageContent"], []⟩
      (by decide) (by decide)).imp (fun _ h => ⟨h.1, h.2.2⟩)⟩

/-- C12, as stated, fails for an empty list `Subtypes`: the zero-field type
`InputMedia` without members is declared as the method-less `interface`, with
no `InputMediaParams` method. -/
theorem generateTypeDef_inputMedia_without_subtypes :
    (⟨"InputMedia", [], "href", [], [], []⟩ : TypeDescription).Fields.length = 0
    ∧ generateTypeDef specExternals sampleSchema ⟨"InputMedia", [], "href", [], [], []⟩
      = ("\n// href\ntype InputMedia interface\x7b\x7d", none) := by
  decide

/-- C12, amended: the zero-field type `InputMedia` makes `generateTypeDef`
succeed with the comment header followed by an interface declaration: with a
non-empty list `Subtypes` the interface declares the method
`InputMediaParams(string, map[string]NamedReader) ([]byte, error)`, with an
empty list it is the method-less `interface`. -/
theorem generateTypeDef_inputMedia_family (env : Externals) (d : APIDescription)
    (tgType : TypeDescription) (hfields : tgType.Fields.length = 0)
    (hname : tgType.Name = tgTypeInputMedia) :
    (tgType.Subtypes ≠ [] →
      generateTypeDef env d tgType
        = (generateTypeDef_header tgType
            ++ "\ntype InputMedia interface\x7b\n\tInputMediaParams(string, map[string]NamedReader) ([]byte, error)\n\x7d",
           none))
    ∧ (tgType.Subtypes = [] →
      generateTypeDef env d tgType
        = (generateTypeDef_header tgType ++ "\ntype InputMedia interface\x7b\x7d", none)) := by
  refine ⟨?_, ?_⟩
  · intro hs
    have hlen : tgType.Subtypes.length ≠ 0 := by simp [List.length_eq_zero, hs]
    simp only [generateTypeDef, hfields, hname, if_true, generateInputMediaInterfaceType, hlen,
      ne_eq, not_false_eq_true, Prod.mk.injEq, and_true]
    exact congrArg _ (by decide)
  · intro hs
    simp only [generateTypeDef, hfields, hname, if_true, generateInputMediaInterfaceType, hs,
      List.length_nil, ne_eq, not_true, if_false, Prod.mk.injEq, and_true]
    exact congrArg _ (by decide)

/-- Witness of C12, amended: the family `InputMedia` with two members. -/
theorem generateTypeDef_inputMedia_family_witness :
    (⟨"InputMedia", [], "href", [], ["InputMediaPhoto", "InputMediaVideo"], []⟩
        : TypeDescription).Fields.length = 0
    ∧ (⟨"InputMedia", [], "href", [], ["InputMediaPhoto", "InputMediaVideo"], []⟩
        : TypeDescription).Name = tgTypeInputMedia
    ∧ generateTypeDef specExternals sampleSchema
          ⟨"InputMedia", [], "href", [], ["InputMediaPhoto", "InputMediaVideo"], []⟩
        = (generateTypeDef_header
              ⟨"InputMedia", [], "href", [], ["InputMediaPhoto", "InputMediaVideo"], []⟩
            ++ "\ntype InputMedia interface\x7b\n\tInputMediaParams(string, map[string]NamedReader) ([]byte, error)\n\x7d",
           none) :=
  ⟨by decide, by decide,
    (generateTypeDef_inputMedia_family specExternals sampleSchema
      ⟨"InputMedia", [], "href", [], ["InputMediaPhoto", "InputMediaVideo"], []⟩
      (by decide) (by decide)).1 (by decide)⟩

/-- C13, evaluated on the code: the wrapper struct of every emitted
`MarshalJSON` declares the injected field as `Type string`, without a json tag,
so `encoding/json` writes it under the key `Type`; reading the key `Type` of the
encoding gives the tag, and reading the key `type` gives only what the embedded
value itself encodes under that key. -/
theorem customMarshal_wire_key (data : customMarshalData) (tag : String)
    (aliasMembers : List (String × String)) :
    customMarshal data
      = ("\nfunc (v " ++ htmlEscape data.Typ ++ ") MarshalJSON() ([]byte, error) \x7b\n\ttype alias "
          ++ htmlEscape data.Typ ++ "\n\ta := struct\x7b\n\t\t")
        ++ customMarshal_typeField.text
        ++ ("\n\t\talias\n\t\x7d\x7b\n\t\tType: \"" ++ htmlEscape data.TypeName
          ++ "\",\n\t\talias: (alias)(v),\n\t\x7d\n\treturn json.Marshal(a)\n\x7d\n")
    ∧ customMarshal_typeField.jsonKey = "Type"
    ∧ (customMarshal_run tag aliasMembers).lookup "Type" = some tag
    ∧ (customMarshal_run tag aliasMembers).lookup "type" = aliasMembers.lookup "type"
    ∧ (customMarshal_run "photo" [("media", "\"attach://media0\"")]).lookup "type" = none := by
  refine ⟨?_, by decide, ?_, ?_, by decide⟩
  · have hlit : "\n\ta := struct\x7b\n\t\tType string\n\t\talias\n\t\x7d\x7b\n\t\tType: \""
        = "\n\ta := struct\x7b\n\t\t"
          ++ (customMarshal_typeField.text ++ "\n\t\talias\n\t\x7d\x7b\n\t\tType: \"") := by
      decide
    unfold customMarshal
    rw [hlit]
    simp only [String.append_assoc]
  · have hk : customMarshal_typeField.jsonKey = "Type" := by decide
    simp [customMarshal_run, hk, List.lookup]
  · have hk : customMarshal_typeField.jsonKey = "Type" := by decide
    have hne : ("type" == "Type") = false := by decide
    simp [customMarshal_run, hk, List.lookup, hne]

/-! ## Lemmas on the side-table -/

theorem lookup_setEntry_self (es : List (String × NamedReader)) (k : String)
    (v : NamedReader) : (setEntry es k v).lookup k = some v := by
  simp [setEntry, List.lookup]

theorem lookup_filter_ne (es : List (String × NamedReader)) (k m : String) (h : k ≠ m) :
    (es.filter (fun e => decide (e.1 ≠ m))).lookup k = es.lookup k := by
  induction es with
  | nil => rfl
  | cons e es ih =>
    obtain ⟨a, b⟩ := e
    rw [List.filter_cons]
    by_cases ha : a = m
    · have hdec : decide ((a, b).1 ≠ m) = false := by simp [ha]
      have hka : (k == a) = false := by
        rw [ha]; exact beq_false_of_ne h
      simp only [hdec, Bool.false_eq_true, if_false]
      rw [ih]
      simp only [List.lookup, hka]
    · have hdec : decide ((a, b).1 ≠ m) = true := by simp [ha]
      simp only [hdec, if_true]
      cases hka : (k == a) with
      | true => simp only [List.lookup, hka]
      | false =>
        simp only [List.lookup, hka]
        exact ih

theorem lookup_setEntry_other (es : List (String × NamedReader)) (k m : String)
    (v : NamedReader) (h : k ≠ m) : (setEntry es m v).lookup k = es.lookup k := by
  have hkm : (k == m) = false := beq_false_of_ne h
  simp only [setEntry, List.lookup, hkm]
  exact lookup_filter_ne es k m h

theorem filter_of_absent (es : List (String × NamedReader)) (m : String)
    (h : es.lookup m = none) : es.filter (fun e => decide (e.1 ≠ m)) = es := by
  induction es with
  | nil => rfl
  | cons e es ih =>
    obtain ⟨a, b⟩ := e
    by_cases hma : m = a
    · simp [List.lookup, hma] at h
    · have hma2 : (m == a) = false := beq_false_of_ne hma
      simp only [List.lookup, hma2] at h
      have hdec : decide ((a, b).1 ≠ m) = true := by
        simp only [ne_eq, decide_eq_true_eq]
        exact fun h2 => hma h2.symm
      rw [List.filter_cons]
      simp only [hdec, if_true]
      rw [ih h]

/-- C14, as stated, fails.  A bare stream sent under the naming argument
`media0`, into a side-table that already has an entry under `media0`, replaces
that entry: the table has one entry before and one after, none is gained.  A
named content whose own name is `photo.jpg`, sent under the naming argument
`media0`, is stored under `media0`, and the value encoded for `media` is
`attach://media0`: the table has no key `photo.jpg`. -/
theorem inputMediaParams_key_is_mediaName :
    inputMediaParams sampleJsonMarshal (.reader 7) "media0"
        (.entries [("media0", .named "old.jpg" 1)])
      = .returned ((some "\x7b\"media\":\"attach://media0\"\x7d", none),
          .entries [("media0", .namedFile 7)])
    ∧ SideTable.len (.entries [("media0", .named "old.jpg" 1)])
        = SideTable.len (.entries [("media0", .namedFile 7)])
    ∧ inputMediaParams sampleJsonMarshal (.namedReader "photo.jpg" 3) "media0" (.entries [])
      = .returned ((some "\x7b\"media\":\"attach://media0\"\x7d", none),
          .entries [("media0", .named "photo.jpg" 3)])
    ∧ SideTable.get (.entries [("media0", .named "photo.jpg" 3)]) "photo.jpg" = none := by
  decide

/-- C14, amended: the emitted `InputMediaParams(mediaName, data)` marshals a
plain string unchanged and leaves the side-table as it is, whatever the
side-table is; for a named content and for a bare stream, with a side-table
that is a map, it marshals the value with `Media` set to `attach://` followed
by the argument `mediaName`, and sets the entry of the side-table under the key
`mediaName` to the named content itself, respectively to the `NamedFile` that
wraps the stream; with the nil map as side-table these two cases stop with the
panic of the write to a nil map.  Setting that entry leaves every other key as
it was, and adds one entry when the key was absent. -/
theorem inputMediaParams_dispatch (jsonMarshal : MediaValue → Option String × Option String)
    (mediaName : String) :
    (∀ data s, inputMediaParams jsonMarshal (.string s) mediaName data
        = .returned (jsonMarshal (.string s), data))
    ∧ (∀ es name stream,
        inputMediaParams jsonMarshal (.namedReader name stream) mediaName (.entries es)
          = .returned (jsonMarshal (.string ("attach://" ++ mediaName)),
              .entries (setEntry es mediaName (.named name stream))))
    ∧ (∀ es stream,
        inputMediaParams jsonMarshal (.reader stream) mediaName (.entries es)
          = .returned (jsonMarshal (.string ("attach://" ++ mediaName)),
              .entries (setEntry es mediaName (.namedFile stream))))
    ∧ (∀ name stream,
        inputMediaParams jsonMarshal (.namedReader name stream) mediaName .nilMap
          = .panicked "assignment to entry in nil map")
    ∧ (∀ stream,
        inputMediaParams jsonMarshal (.reader stream) mediaName .nilMap
          = .panicked "assignment to entry in nil map")
    ∧ (∀ es v, SideTable.get (.entries (setEntry es mediaName v)) mediaName = some v)
    ∧ (∀ es v k, k ≠ mediaName →
        SideTable.get (.entries (setEntry es mediaName v)) k = SideTable.get (.entries es) k)
    ∧ (∀ es v, SideTable.get (.entries es) mediaName = none →
        SideTable.len (.entries (setEntry es mediaName v))
          = SideTable.len (.entries es) + 1) := by
  refine ⟨fun _ _ => rfl, fun _ _ _ => rfl, fun _ _ => rfl, fun _ _ => rfl, fun _ => rfl,
    ?_, ?_, ?_⟩
  · exact fun es v => lookup_setEntry_self es mediaName v
  · exact fun es v k h => lookup_setEntry_other es k mediaName v h
  · intro es v h
    simp only [SideTable.get] at h
    simp only [SideTable.len, setEntry, filter_of_absent es mediaName h, List.length_cons]

/-- C15: the type switch of the emitted `InputMediaParams` fails exactly when
`Media` holds a value that is neither a string, nor a named content, nor a
stream; the method then returns no bytes and the error made of the Go type of
the value, and the side-table is the one it was given, be it the nil map.  In
every other case the method returns what `json.Marshal` returns, unless it has
to write to a side-table that is the nil map, where it stops with a panic. -/
theorem inputMediaParams_unknown_shape
    (jsonMarshal : MediaValue → Option String × Option String)
    (media : MediaValue) (mediaName : String) (data : SideTable) :
    ((∃ err, inputMediaParams_switch media mediaName data = .returned (.error err))
        ↔ ∃ goType, media = .other goType)
    ∧ (∀ goType, media = .other goType →
        inputMediaParams jsonMarshal media mediaName data
          = .returned ((none, some ("unknown type for InputMedia: " ++ goType)), data))
    ∧ ((∀ goType, media ≠ .other goType) →
        (∃ media2 data2,
            inputMediaParams_switch media mediaName data = .returned (.ok (media2, data2))
            ∧ inputMediaParams jsonMarshal media mediaName data
                = .returned (jsonMarshal media2, data2))
        ∨ (data = .nilMap
            ∧ ((∃ name stream, media = .namedReader name stream) ∨ ∃ stream, media = .reader stream)
            ∧ inputMediaParams jsonMarshal media mediaName data
                = .panicked "assignment to entry in nil map")) := by
  refine ⟨?_, ?_, ?_⟩
  · cases media with
    | other goType => simp [inputMediaParams_switch]
    | nil => simp [inputMediaParams_switch]
    | string s => simp [inputMediaParams_switch]
    | namedReader name stream =>
      cases data <;> simp [inputMediaParams_switch, SideTable.set]
    | reader stream =>
      cases data <;> simp [inputMediaParams_switch, SideTable.set]
  · intro goType h
    subst h
    rfl
  · intro h
    cases media with
    | other goType => exact absurd rfl (h goType)
    | nil => exact Or.inl ⟨_, _, rfl, rfl⟩
    | string s => exact Or.inl ⟨_, _, rfl, rfl⟩
    | namedReader name stream =>
      cases data with
      | nilMap => exact Or.inr ⟨rfl, Or.inl ⟨name, stream, rfl⟩, rfl⟩
      | entries es => exact Or.inl ⟨_, _, rfl, rfl⟩
    | reader stream =>
      cases data with
      | nilMap => exact Or.inr ⟨rfl, Or.inr ⟨stream, rfl⟩, rfl⟩
      | entries es => exact Or.inl ⟨_, _, rfl, rfl⟩

/-! ## Lemmas on the driver -/

theorem typeDefsLoop_ok (env : Externals) (d : APIDescription) (names : List String) :
    ∀ file : String, (∀ m ∈ names, (generateTypeDef env d (typeOf d m)).2 = none) →
      typeDefsLoop env d names file = .ok (file ++ typeDefsText env d names) := by
  induction names with
  | nil => intro file _; simp [typeDefsLoop, typeDefsText]
  | cons n names ih =>
    intro file h
    have hn := h n (List.mem_cons_self _ _)
    have hrest : ∀ m ∈ names, (generateTypeDef env d (typeOf d m)).2 = none :=
      fun m hm => h m (List.mem_cons_of_mem _ hm)
    unfold typeDefsLoop
    rcases hg : generateTypeDef env d (typeOf d n) with ⟨text, e⟩
    rw [hg] at hn
    simp only at hn
    subst hn
    simp only [ih _ hrest, typeDefsText, hg, String.append_assoc]

theorem typeDefsLoop_error (env : Externals) (d : APIDescription) (pre : List String)
    (n : String) (post : List String) (text err : String) :
    ∀ file : String, (∀ m ∈ pre, (generateTypeDef env d (typeOf d m)).2 = none) →
      generateTypeDef env d (typeOf d n) = (text, some err) →
      typeDefsLoop env d (pre ++ n :: post) file
        = .error ("failed to generate type definition of " ++ n ++ ": " ++ err) := by
  induction pre with
  | nil =>
    intro file _ hn
    simp [typeDefsLoop, hn]
  | cons m pre ih =>
    intro file h hn
    have hm := h m (List.mem_cons_self _ _)
    have hrest : ∀ k ∈ pre, (generateTypeDef env d (typeOf d k)).2 = none :=
      fun k hk => h k (List.mem_cons_of_mem _ hk)
    simp only [List.cons_append]
    unfold typeDefsLoop
    rcases hg : generateTypeDef env d (typeOf d m) with ⟨t, e⟩
    rw [hg] at hm
    simp only at hm
    subst hm
    simp only [ih _ hrest hn]

/-- C16: when `generateTypeDef` fails for a type of the ordered list and
succeeds for those before it, `generateTypes` returns the error made of the
name of that type and of the message of the underlying error, and makes no
call to the sink; when it fails for none, `generateTypes` calls the sink once,
with the header, the `ReplyMarkup` interface and the type definitions in the
order of the list, under the name `gen_types.go`, and returns what the sink
returns. -/
theorem generateTypes_all_or_nothing (env : Externals)
    (orderedTgTypes : APIDescription → List String)
    (writeGenToFile : String → String → Option String) (d : APIDescription) :
    (∀ pre n post text err, orderedTgTypes d = pre ++ n :: post →
        (∀ m ∈ pre, (generateTypeDef env d (typeOf d m)).2 = none) →
        generateTypeDef env d (typeOf d n) = (text, some err) →
        generateTypes env orderedTgTypes writeGenToFile d
          = (some ("failed to generate type definition of " ++ n ++ ": " ++ err), []))
    ∧ ((∀ m ∈ orderedTgTypes d, (generateTypeDef env d (typeOf d m)).2 = none) →
        generateTypes env orderedTgTypes writeGenToFile d
          = (writeGenToFile
              (generatedFileHeader
                ++ "\ntype ReplyMarkup interface\x7b\n\tReplyMarkup() ([]byte, error)\n\x7d"
                ++ typeDefsText env d (orderedTgTypes d)) "gen_types.go",
             [(generatedFileHeader
                ++ "\ntype ReplyMarkup interface\x7b\n\tReplyMarkup() ([]byte, error)\n\x7d"
                ++ typeDefsText env d (orderedTgTypes d), "gen_types.go")])) := by
  have hiface : generateGenericInterfaceType "ReplyMarkup" true
      = "\ntype ReplyMarkup interface\x7b\n\tReplyMarkup() ([]byte, error)\n\x7d" := by decide
  refine ⟨?_, ?_⟩
  · intro pre n post text err hsplit hpre hn
    simp only [generateTypes, hsplit, typeDefsLoop_error env d pre n post text err _ hpre hn]
  · intro hall
    simp only [generateTypes, typeDefsLoop_ok env d _ _ hall, hiface]

/-- Witness of C16: in a schema whose second type `Dice` has no fields and is
not known, generation stops at `Dice` and the sink is not called; in a schema
with the single type `Message` the sink is called once. -/
theorem generateTypes_all_or_nothing_witness :
    generateTypes specExternals sampleOrderedTgTypes sampleWriteGenToFile sampleSchemaWithUnknown
      = (some ("failed to generate type definition of " ++ "Dice" ++ ": "
          ++ "unknown type Dice has no fields - please check if this requires implementation"),
          [])
    ∧ generateTypes specExternals sampleOrderedTgTypes sampleWriteGenToFile sampleSchema
      = (sampleWriteGenToFile
          (generatedFileHeader
            ++ "\ntype ReplyMarkup interface\x7b\n\tReplyMarkup() ([]byte, error)\n\x7d"
            ++ typeDefsText specExternals sampleSchema (sampleOrderedTgTypes sampleSchema))
          "gen_types.go",
         [(generatedFileHeader
            ++ "\ntype ReplyMarkup interface\x7b\n\tReplyMarkup() ([]byte, error)\n\x7d"
            ++ typeDefsText specExternals sampleSchema (sampleOrderedTgTypes sampleSchema),
           "gen_types.go")])
    ∧ typeDefsText specExternals sampleSchema (sampleOrderedTgTypes sampleSchema)
      = "\n// \ntype Message struct \x7b\n// Id\nMessageId int64 `json:\"message_id,omitempty\"`\n\x7d" :=
  ⟨(generateTypes_all_or_nothing specExternals sampleOrderedTgTypes sampleWriteGenToFile
      sampleSchemaWithUnknown).1 ["Message"] "Dice" ["Chat"] ""
      "unknown type Dice has no fields - please check if this requires implementation"
      (by decide) (by decide) (by decide),
   (generateTypes_all_or_nothing specExternals sampleOrderedTgTypes sampleWriteGenToFile
      sampleSchema).2 (by decide),
   by decide⟩

/-! ## Further lemmas on the binder and the field projector -/

theorem renderAll_parentsGlue (env : Externals) (name : String) (ps : List String) :
    renderAll (parentsGlue env name ps)
      = joinTexts (ps.map (fun p => renderAll (parentGlue env name p))) := by
  induction ps with
  | nil => simp [parentsGlue, renderAll, joinTexts]
  | cons p ps ih => simp [parentsGlue, renderAll_append, joinTexts, ih]

theorem parentGlue_plain (env : Externals) (name p : String)
    (hp : p = tgTypeInputMessageContent ∨ p = tgTypePassportElementError) :
    parentGlue env name p = [Glue.accessorMethod ⟨name, p⟩] := by
  have h2 : tgTypeInputMessageContent ≠ tgTypeInputMedia := by decide
  have h3 : tgTypeInputMessageContent ≠ tgTypeInlineQueryResult := by decide
  have h4 : tgTypePassportElementError ≠ tgTypeInputMedia := by decide
  have h5 : tgTypePassportElementError ≠ tgTypeInlineQueryResult := by decide
  rcases hp with h | h <;> subst h <;> simp [parentGlue, h2, h3, h4, h5]

theorem typeFieldsLoop_error_iff (env : Externals) (d : APIDescription)
    (tgType : TypeDescription) (fs : List Field) :
    ∀ w : String, (∃ err, typeFieldsLoop env d tgType fs w = .error err)
      ↔ ∃ f ∈ fs, (env.getPreferredType f).2 ≠ none := by
  induction fs with
  | nil => intro w; simp [typeFieldsLoop]
  | cons f fs ih =>
    intro w
    unfold typeFieldsLoop
    rcases hp : env.getPreferredType f with ⟨t, e⟩
    cases e with
    | some err => simp [hp]
    | none =>
      simp only [List.mem_cons, exists_eq_or_imp, hp, ne_eq, not_true, false_or]
      cases hfam : familyFieldType tgType f t with
      | none => simpa using ih w
      | some t2 => simpa using ih _

theorem typeFieldsLoop_first_error (env : Externals) (d : APIDescription)
    (tgType : TypeDescription) (pre : List Field) (f : Field) (post : List Field)
    (t err : String) :
    ∀ w : String, (∀ g ∈ pre, (env.getPreferredType g).2 = none) →
      env.getPreferredType f = (t, some err) →
      typeFieldsLoop env d tgType (pre ++ f :: post) w
        = .error ("failed to get preferred type: " ++ err) := by
  induction pre with
  | nil =>
    intro w _ hf
    simp [typeFieldsLoop, hf]
  | cons g pre ih =>
    intro w h hf
    have hg := h g (List.mem_cons_self _ _)
    have hrest : ∀ k ∈ pre, (env.getPreferredType k).2 = none :=
      fun k hk => h k (List.mem_cons_of_mem _ hk)
    simp only [List.cons_append]
    unfold typeFieldsLoop
    rcases hp : env.getPreferredType g with ⟨t2, e⟩
    rw [hp] at hg
    simp only at hg
    subst hg
    simp only
    cases hfam : familyFieldType tgType g t2 with
    | none => simpa using ih w hrest hf
    | some t3 => simpa using ih _ hrest hf

/-- C17: for a parent `InputMessageContent` or `PassportElementError` of a type
on which `generateParentTypeInterfaces` succeeds, the code emitted for that
parent, between the glue of the parents before it and the glue of what
follows, is the accessor method named after the family returning
`json.Marshal(v)`, and nothing else.  A type whose parents are all of these two
kinds, and whose name is not a reply-markup name, gets one such accessor for
each parent, in order, and nothing else. -/
theorem generateParentTypeInterfaces_plain_accessor (env : Externals)
    (tgType : TypeDescription) (ps : List String) (p : String) (qs : List String)
    (hsplit : tgType.SubtypeOf = ps ++ p :: qs)
    (hp : p = tgTypeInputMessageContent ∨ p = tgTypePassportElementError) :
    (∀ out, generateParentTypeInterfaces env tgType = (out, none) →
        out = renderAll (parentsGlue env tgType.Name ps)
          ++ ("\nfunc (v " ++ htmlEscape tgType.Name ++ ") " ++ p
              ++ "() ([]byte, error) \x7b\n\treturn json.Marshal(v)\n\x7d\n")
          ++ renderAll (parentsGlue env tgType.Name qs ++ replyMarkupGlue tgType.Name))
    ∧ ((∀ q ∈ tgType.SubtypeOf, q = tgTypeInputMessageContent ∨ q = tgTypePassportElementError) →
        tgType.Name ∉ replyMarkupTypes →
        generateParentTypeInterfaces env tgType
          = (joinTexts (tgType.SubtypeOf.map (fun q =>
              "\nfunc (v " ++ htmlEscape tgType.Name ++ ") " ++ htmlEscape q
                ++ "() ([]byte, error) \x7b\n\treturn json.Marshal(v)\n\x7d\n")), none)) := by
  have hesc : htmlEscape p = p := by
    rcases hp with h | h <;> subst h <;> decide
  refine ⟨?_, ?_⟩
  · intro out hok
    obtain ⟨_, hout⟩ := generateParentTypeInterfaces_ok env tgType out hok
    rw [hout]
    simp only [emittedGlue, hsplit, parentsGlue_append, parentsGlue, renderAll_append,
      parentGlue_plain env tgType.Name p hp, renderAll, Glue.render, genericInterfaceMethod,
      hesc, String.append_assoc, String.append_empty]
    rfl
  · intro hall hname
    have hk : ∀ q ∈ tgType.SubtypeOf, knownParent q = true := by
      intro q hq
      rcases hall q hq with h | h <;> subst h <;> decide
    rw [generateParentTypeInterfaces_known env tgType hk]
    simp only [emittedGlue, replyMarkupGlue, hname, if_false, List.append_nil,
      renderAll_parentsGlue, Prod.mk.injEq, and_true]
    congr 1
    apply List.map_congr_left
    intro q hq
    rw [parentGlue_plain env tgType.Name q (hall q hq)]
    simp [renderAll, Glue.render, genericInterfaceMethod]

/-- Witness of C17: a type with the parents `InputMessageContent` and
`PassportElementError`. -/
theorem generateParentTypeInterfaces_plain_accessor_witness :
    (sampleType "Contact" ["InputMessageContent", "PassportElementError"]).SubtypeOf
      = ["InputMessageContent"] ++ "PassportElementError" :: []
    ∧ generateParentTypeInterfaces specExternals
        (sampleType "Contact" ["InputMessageContent", "PassportElementError"])
      = (joinTexts ((sampleType "Contact"
            ["InputMessageContent", "PassportElementError"]).SubtypeOf.map (fun q =>
              "\nfunc (v " ++ htmlEscape (sampleType "Contact"
                  ["InputMessageContent", "PassportElementError"]).Name ++ ") " ++ htmlEscape q
                ++ "() ([]byte, error) \x7b\n\treturn json.Marshal(v)\n\x7d\n")), none)
    ∧ generateParentTypeInterfaces specExternals
        (sampleType "Contact" ["InputMessageContent", "PassportElementError"])
      = ("\nfunc (v Contact) InputMessageContent() ([]byte, error) \x7b\n\treturn json.Marshal(v)\n\x7d\n"
          ++ "\nfunc (v Contact) PassportElementError() ([]byte, error) \x7b\n\treturn json.Marshal(v)\n\x7d\n",
          none) :=
  ⟨by decide,
    (generateParentTypeInterfaces_plain_accessor specExternals
      (sampleType "Contact" ["InputMessageContent", "PassportElementError"])
      ["InputMessageContent"] "PassportElementError" [] (by decide) (Or.inr (by decide))).2
      (by decide) (by decide),
    by rfl⟩

/-- C18: for a type whose name is not a reply-markup name and whose parents
`ps ++ qs` are all handled families, `generateParentTypeInterfaces` succeeds
with the concatenation, in declared order, of the glue of each parent, which is
a function of the name and of that parent alone; its output is the output for
the parents `ps` followed by the output for the parents `qs`, for any two types
of that name with these parent lists, whatever their other attributes are. -/
theorem generateParentTypeInterfaces_append (env : Externals) (tgType : TypeDescription)
    (ps qs : List String) (hname : tgType.Name ∉ replyMarkupTypes)
    (hsplit : tgType.SubtypeOf = ps ++ qs) (hknown : ∀ p ∈ ps ++ qs, p ∈ handledParents) :
    generateParentTypeInterfaces env tgType
      = (joinTexts ((ps ++ qs).map (fun p => renderAll (parentGlue env tgType.Name p))), none)
    ∧ ∀ tp tq : TypeDescription, tp.Name = tgType.Name → tp.SubtypeOf = ps →
        tq.Name = tgType.Name → tq.SubtypeOf = qs →
        (generateParentTypeInterfaces env tp).2 = none
        ∧ (generateParentTypeInterfaces env tq).2 = none
        ∧ generateParentTypeInterfaces env tgType
          = ((generateParentTypeInterfaces env tp).1 ++ (generateParentTypeInterfaces env tq).1,
              none) := by
  have hall : ∀ p ∈ tgType.SubtypeOf, knownParent p = true := by
    intro p hp
    rw [hsplit] at hp
    exact (knownParent_iff_mem p).2 (hknown p hp)
  have hmain : generateParentTypeInterfaces env tgType
      = (renderAll (parentsGlue env tgType.Name (ps ++ qs)), none) := by
    rw [generateParentTypeInterfaces_known env tgType hall]
    simp [emittedGlue, replyMarkupGlue, hname, hsplit]
  refine ⟨?_, ?_⟩
  · rw [hmain, renderAll_parentsGlue]
  · intro tp tq hnp hsp hnq hsq
    have hkp : ∀ p ∈ tp.SubtypeOf, knownParent p = true := by
      intro p hp
      rw [hsp] at hp
      exact (knownParent_iff_mem p).2 (hknown p (List.mem_append_left _ hp))
    have hkq : ∀ p ∈ tq.SubtypeOf, knownParent p = true := by
      intro p hp
      rw [hsq] at hp
      exact (knownParent_iff_mem p).2 (hknown p (List.mem_append_right _ hp))
    rw [hmain, generateParentTypeInterfaces_known env tp hkp,
      generateParentTypeInterfaces_known env tq hkq]
    simp [emittedGlue, replyMarkupGlue, hnp, hnq, hname, hsp, hsq, parentsGlue_append,
      renderAll_append]

/-- Witness of C18: the parents `InputMedia`, `InputMessageContent` split after
the first one. -/
theorem generateParentTypeInterfaces_append_witness :
    "InputMediaPhoto" ∉ replyMarkupTypes
    ∧ generateParentTypeInterfaces specExternals
        (sampleType "InputMediaPhoto" ["InputMedia", "InputMessageContent"])
      = ((generateParentTypeInterfaces specExternals sampleChatAsPhoto).1
          ++ (generateParentTypeInterfaces specExternals
                (sampleType "InputMediaPhoto" ["InputMessageContent"])).1, none) :=
  ⟨by decide,
    ((generateParentTypeInterfaces_append specExternals
      (sampleType "InputMediaPhoto" ["InputMedia", "InputMessageContent"])
      ["InputMedia"] ["InputMessageContent"] (by decide) (by decide) (by decide)).2
      sampleChatAsPhoto (sampleType "InputMediaPhoto" ["InputMessageContent"])
      (by decide) (by decide) (by decide) (by decide)).2.2⟩

/-- C19: a successful `generateTypeFields` returns one declaration for each
field that is not suppressed, in the order of the fields, the suppressed fields
being those named `type` of a member of `InputMedia` or `InlineQueryResult`;
each declaration is a comment line followed by the Go name, a Go type and the
json tag made of the wire name as it is and of `omitempty`.  For a type that
belongs to neither family every field is declared, with its preferred type,
made a pointer when the optionality rule applies. -/
theorem generateTypeFields_declarations (env : Externals) (d : APIDescription)
    (tgType : TypeDescription) (out : String)
    (hok : generateTypeFields env d tgType = (out, none)) :
    (∃ T : Field → String,
      out = joinTexts ((tgType.Fields.filter (fun f =>
                !(decide (f.Name = "type")
                  && (isSubtypeOf tgType tgTypeInputMedia
                      || isSubtypeOf tgType tgTypeInlineQueryResult)))).map
              (fun f => fieldDecl env f (T f))))
    ∧ (isSubtypeOf tgType tgTypeInputMedia = false →
        isSubtypeOf tgType tgTypeInlineQueryResult = false →
        out = joinTexts (tgType.Fields.map
                (fun f => fieldDecl env f
                  (optionalFieldType env d f (env.getPreferredType f).1))))
    ∧ (∀ (f : Field) (T : String),
        fieldDecl env f T
          = "\n// " ++ (f.Description ++ ("\n" ++ (env.snakeToTitle f.Name ++ (" " ++ (T
              ++ (" `json:\"" ++ (f.Name ++ ",omitempty\"`")))))))) := by
  have hout := generateTypeFields_ok env d tgType out hok
  refine ⟨⟨fun f => optionalFieldType env d f
    ((familyFieldType tgType f (env.getPreferredType f).1).getD ""), ?_⟩, ?_, ?_⟩
  · rw [hout]
    have key : ∀ f : Field, familyFieldType tgType f (env.getPreferredType f).1 = none
        ↔ (decide (f.Name = "type")
            && (isSubtypeOf tgType tgTypeInputMedia
                || isSubtypeOf tgType tgTypeInlineQueryResult)) = true := by
      intro f
      unfold familyFieldType
      by_cases hq : isSubtypeOf tgType tgTypeInlineQueryResult = true
      · by_cases hn : f.Name = "type" <;> simp [hq, hn]
      · by_cases hm : isSubtypeOf tgType tgTypeInputMedia = true
        · by_cases hn : f.Name = "type"
          · simp [hq, hm, hn]
          · by_cases hmed : f.Name = "media" <;> simp [hq, hm, hn, hmed]
        · simp [hq, hm]
    generalize tgType.Fields = fs
    induction fs with
    | nil => simp [projectFields, joinTexts]
    | cons f fs ih =>
      cases hsome : familyFieldType tgType f (env.getPreferredType f).1 with
      | none =>
        have hb := (key f).1 hsome
        rw [List.filter_cons]
        simp only [hb, Bool.not_true, Bool.false_eq_true, if_false]
        simp only [projectFields, projectField, hsome, String.empty_append]
        exact ih
      | some t =>
        have hb : (decide (f.Name = "type")
            && (isSubtypeOf tgType tgTypeInputMedia
                || isSubtypeOf tgType tgTypeInlineQueryResult)) = false := by
          cases hc : (decide (f.Name = "type")
            && (isSubtypeOf tgType tgTypeInputMedia
                || isSubtypeOf tgType tgTypeInlineQueryResult)) with
          | false => rfl
          | true =>
            have := (key f).2 hc
            rw [hsome] at this
            exact absurd this (by simp)
        rw [List.filter_cons]
        simp only [hb, Bool.not_false, if_true, List.map_cons, joinTexts]
        simp only [projectFields, projectField, hsome, Option.getD_some]
        rw [ih]
  · intro hm hq
    rw [hout]
    generalize tgType.Fields = fs
    induction fs with
    | nil => simp [projectFields, joinTexts]
    | cons f fs ih =>
      simp only [projectFields, projectField, familyFieldType, hm, hq, Bool.false_eq_true,
        if_false, List.map_cons, joinTexts]
      rw [ih]
  · intro f T
    simp only [fieldDecl, String.append_assoc]

/-- Witness of C19: `Chat` belongs to no family; its three fields are declared
in order. -/
theorem generateTypeFields_declarations_witness :
    generateTypeFields specExternals sampleSchema sampleChat
        = ("\n// Id\nId int64 `json:\"id,omitempty\"`"
            ++ "\n// Pinned\nPinnedMessage *Message `json:\"pinned_message,omitempty\"`"
            ++ "\n// Title\nTitle string `json:\"title,omitempty\"`", none)
    ∧ (isSubtypeOf sampleChat tgTypeInputMedia = false →
        isSubtypeOf sampleChat tgTypeInlineQueryResult = false →
        "\n// Id\nId int64 `json:\"id,omitempty\"`"
            ++ "\n// Pinned\nPinnedMessage *Message `json:\"pinned_message,omitempty\"`"
            ++ "\n// Title\nTitle string `json:\"title,omitempty\"`"
          = joinTexts (sampleChat.Fields.map
                (fun f => fieldDecl specExternals f
                  (optionalFieldType specExternals sampleSchema f
                    (specExternals.getPreferredType f).1)))) :=
  ⟨by decide,
    (generateTypeFields_declarations specExternals sampleSchema sampleChat _ (by decide)).2.1⟩

/-- C20: `generateTypeFields` fails exactly when `getPreferredType` fails for a
field of the type; the first such field, whatever its name, gives the error,
and the returned text is empty; `generateTypeDef` then returns the empty text
and the same error. -/
theorem generateTypeFields_fails_iff (env : Externals) (d : APIDescription)
    (tgType : TypeDescription) :
    ((generateTypeFields env d tgType).2 ≠ none
        ↔ ∃ f ∈ tgType.Fields, (env.getPreferredType f).2 ≠ none)
    ∧ (∀ pre f post t err, tgType.Fields = pre ++ f :: post →
        (∀ g ∈ pre, (env.getPreferredType g).2 = none) →
        env.getPreferredType f = (t, some err) →
        generateTypeFields env d tgType = ("", some ("failed to get preferred type: " ++ err)))
    ∧ ((generateTypeFields env d tgType).2 ≠ none →
        (generateTypeFields env d tgType).1 = ""
        ∧ generateTypeDef env d tgType = ("", (generateTypeFields env d tgType).2)) := by
  have hiff := typeFieldsLoop_error_iff env d tgType tgType.Fields ""
  have hfail : (generateTypeFields env d tgType).2 ≠ none
      ↔ ∃ err, typeFieldsLoop env d tgType tgType.Fields "" = .error err := by
    unfold generateTypeFields
    cases hl : typeFieldsLoop env d tgType tgType.Fields "" with
    | error e => simp
    | ok w => simp
  refine ⟨hfail.trans hiff, ?_, ?_⟩
  · intro pre f post t err hsplit hpre hf
    simp only [generateTypeFields, hsplit,
      typeFieldsLoop_first_error env d tgType pre f post t err "" hpre hf]
  · intro h
    obtain ⟨err, herr⟩ := hfail.1 h
    obtain ⟨f, hf, _⟩ := hiff.1 ⟨err, herr⟩
    have hlen : tgType.Fields.length ≠ 0 := by
      intro h0
      rw [List.length_eq_zero.1 h0] at hf
      simp at hf
    have hgen : generateTypeFields env d tgType = ("", some err) := by
      simp only [generateTypeFields, herr]
    refine ⟨by rw [hgen], ?_⟩
    simp only [generateTypeDef, hlen, if_false, hgen]

/-- Witness of C20: in a member of `InputMedia`, the field `type`, which the
suppression rule would drop, has no preferred type; the generation of the
fields and of the type fails. -/
theorem generateTypeFields_fails_iff_witness :
    generateTypeFields specExternals sampleSchema
        ⟨"InputMediaPhoto", [], "", [sampleId, ⟨"type", [], true, "Type"⟩], [],
          ["InputMedia"]⟩
      = ("", some ("failed to get preferred type: " ++ "no preferred type for field type"))
    ∧ generateTypeDef specExternals sampleSchema
        ⟨"InputMediaPhoto", [], "", [sampleId, ⟨"type", [], true, "Type"⟩], [],
          ["InputMedia"]⟩
      = ("", some "failed to get preferred type: no preferred type for field type") :=
  ⟨(generateTypeFields_fails_iff specExternals sampleSchema
      ⟨"InputMediaPhoto", [], "", [sampleId, ⟨"type", [], true, "Type"⟩], [],
        ["InputMedia"]⟩).2.1 [sampleId] ⟨"type", [], true, "Type"⟩ [] ""
      "no preferred type for field type" (by decide) (by decide) (by decide),
   by decide⟩

end Generate
